import Mathlib

/-!
Verification of the credential-rotation core of openemr-on-eks
(`tools/credential-rotation/src/credential_rotation/`).

The Python modules are shallowly embedded as executable Lean definitions:

* `efs_editor.py` — the sqlconf.php parser/renderer.  The two regular
  expressions used by the source are simple anchored patterns; their
  leftmost-match semantics is deterministic (the character classes of
  adjacent pattern pieces are disjoint), so they are embedded as a
  single-pass matcher over `List Char`.
* `secrets_manager.py` — slot-store payloads, `standby_slot`,
  `generate_password`.
* `rotate.py` — the orchestrator, embedded as a state monad over an
  explicit world state (secret store contents, on-disk config file,
  cluster mirror, event trace).  External outcomes (the random password
  stream, connection successes, infrastructure-call failures) are
  supplied by an environment record of oracles.

Machine-level caveats of the embedding, recorded once here:
* Python `str` values are modelled as Lean `String`; JSON numeric ports
  are taken after the source's `str(...)` coercion.
* Python's `\s` is modelled over its ASCII range (space, tab, newline,
  carriage return, vertical tab, form feed).
* `re.subn`'s replacement-template escape processing is not exercised
  for replacement values free of backslashes; the renderer inserts the
  value literally, and all theorems about it restrict to such values.
* `pymysql` connection failures are modelled as the `OperationalError`
  the source catches.
-/

/-! ## Errors raised by the Python source -/

/-- The exceptions the credential-rotation source can raise, one
constructor per `raise` site (KeyError from `dict[...]` access,
ValueError from `SlotSecretState` / `render_sqlconf` /
`_upsert_openemr_db_user`, pymysql.OperationalError from failed
connections, RuntimeError from admin self-heal exhaustion, and
infrastructure failures of write/patch/restart/put calls). -/
inductive RErr where
  | keyError (key : String)
  | invalidActiveSlot (v : String)
  | slotMissing (name : String)
  | invalidSlotLabel (v : String)
  | unableToLocate (phpVar : String)
  | unsupportedDbname (db : String)
  | connFailed (user : String)
  | adminSecretInvalid
  | opFailed (kind : String)
  deriving DecidableEq, Repr

/-! ## efs_editor.py — parse_sqlconf / render_sqlconf

The source patterns are, for each managed php variable `v` in
`host, port, login, pass, dbase`:

  parse  : `^\$v\s*=\s*['"]([^'"]+)['"]\s*;`      (re.MULTILINE, first match)
  render : `^(\$v\s*=\s*['"])([^'"]+)(['"]\s*;)`  (re.subn, count=1)

Both patterns are deterministic: after the anchored literal `$v`,
whitespace runs are delimited by non-whitespace literals, the value
group `[^'"]+` extends exactly to the first quote character, and the
pattern fails or succeeds with no backtracking alternatives. -/

/-- Python `\s` over its ASCII range. -/
def pyIsSpace (c : Char) : Bool :=
  c = ' ' || c = '\t' || c = '\n' || c = '\r' || c = '\x0b' || c = '\x0c'

/-- A character matched by the pattern's `['"]` class. -/
def isQuote (c : Char) : Bool := c = '\'' || c = '"'

/-- Consume an exact literal from the head of the input. -/
def matchLit : List Char → List Char → Option (List Char)
  | [], cs => some cs
  | _ :: _, [] => none
  | l :: ls, c :: cs => if c = l then matchLit ls cs else none

/-- Greedy `\s*`: longest whitespace prefix and the remainder. -/
def spanSpace : List Char → List Char × List Char
  | [] => ([], [])
  | c :: cs =>
    if pyIsSpace c then
      let r := spanSpace cs
      (c :: r.1, r.2)
    else ([], c :: cs)

/-- Greedy `[^'"]*`: longest quote-free prefix and the remainder. -/
def spanNonQuote : List Char → List Char × List Char
  | [] => ([], [])
  | c :: cs =>
    if isQuote c then ([], c :: cs)
    else
      let r := spanNonQuote cs
      (c :: r.1, r.2)

/-- The pieces of one matched assignment: group 1 (`$v\s*=\s*['"]`),
the value group, group 3 (`['"]\s*;`), and the input remainder. -/
structure MatchParts where
  g1 : List Char
  val : List Char
  g3 : List Char
  rest : List Char
  deriving DecidableEq, Repr

/-- Attempt the assignment pattern for variable `var` at the head of
the input (the `^` anchor is handled by the caller). -/
def tryMatch (var : List Char) (cs : List Char) : Option MatchParts :=
  match cs with
  | c0 :: cs1 =>
    if c0 = '$' then
    match matchLit var cs1 with
    | none => none
    | some r1 =>
      let s1 := spanSpace r1
      match s1.2 with
      | c1 :: r3 =>
        if c1 = '=' then
        let s2 := spanSpace r3
        match s2.2 with
        | q1 :: r5 =>
          if isQuote q1 then
            let sv := spanNonQuote r5
            if sv.1.isEmpty then none
            else
              match sv.2 with
              | q2 :: r7 =>
                if isQuote q2 then
                  let s3 := spanSpace r7
                  match s3.2 with
                  | c2 :: r9 =>
                    if c2 = ';' then
                      some ⟨'$' :: var ++ s1.1 ++ '=' :: s2.1 ++ [q1],
                            sv.1, q2 :: s3.1 ++ [';'], r9⟩
                    else none
                  | [] => none
                else none
              | [] => none
          else none
        | [] => none
        else none
      | [] => none
    else none
  | [] => none

/-- Leftmost `re.MULTILINE` search: try the pattern at every line
start, scanning left to right.  `atLS` records whether the current
position starts a line.  Returns the consumed prefix and the match. -/
def scanFrom (var : List Char) : Bool → List Char → Option (List Char × MatchParts)
  | _, [] => none
  | atLS, c :: cs =>
    match (if atLS then tryMatch var (c :: cs) else none) with
    | some m => some ([], m)
    | none => (scanFrom var (c = '\n') cs).map fun pm => (c :: pm.1, pm.2)

/-- `re.search(pattern_v, content, re.MULTILINE)`. -/
def scanMatch (var : List Char) (cs : List Char) : Option (List Char × MatchParts) :=
  scanFrom var true cs

/-- The captured value of the first match, if any (one entry of
`parse_sqlconf`'s result dict). -/
def parseOne (var : List Char) (cs : List Char) : Option (List Char) :=
  (scanMatch var cs).map fun pm => pm.2.val

/-- The result dict of `parse_sqlconf`: keys absent when the field's
pattern does not match. -/
structure Sqlconf where
  host : Option String
  port : Option String
  username : Option String
  password : Option String
  dbname : Option String
  deriving DecidableEq, Repr

/-- `parse_sqlconf(content)` (efs_editor.py lines 20-37). -/
def parse_sqlconf (content : String) : Sqlconf :=
  { host := (parseOne "host".data content.data).map String.mk
  , port := (parseOne "port".data content.data).map String.mk
  , username := (parseOne "login".data content.data).map String.mk
  , password := (parseOne "pass".data content.data).map String.mk
  , dbname := (parseOne "dbase".data content.data).map String.mk }

/-- One slot record of the slot-store JSON document.  Fields are
optional because the source reads them with `dict.get`/`setdefault`
and only `_ensure_slot_initialized` guarantees completeness. -/
structure SlotRec where
  username : Option String
  password : Option String
  host : Option String
  port : Option String
  dbname : Option String
  deriving DecidableEq, Repr

/-- `re.subn(pattern_v, replacement, content, count=1)` with the value
inserted literally (faithful for backslash-free values; see the file
header). -/
def renderOne (var : List Char) (v : List Char) (content : List Char) : Option (List Char) :=
  (scanMatch var content).map fun pm =>
    pm.1 ++ pm.2.g1 ++ v ++ pm.2.g3 ++ pm.2.rest

/-- One loop iteration of `render_sqlconf`: substitute or raise
`ValueError("Unable to locate $v assignment...")`. -/
def renderStep (phpVar : String) (v : String) (content : List Char) : Except RErr (List Char) :=
  match renderOne phpVar.data v.data content with
  | some c => .ok c
  | none => .error (.unableToLocate phpVar)

/-- `dict[key]` access on an optional slot field (KeyError when absent). -/
def slotFieldGet (v : Option String) (key : String) : Except RErr String :=
  match v with
  | some s => .ok s
  | none => .error (.keyError key)

/-- `render_sqlconf(content, slot)` (efs_editor.py lines 40-59): the
replacements dict is evaluated first (KeyError on a missing slot
field), then the five php assignments are rewritten in order
host, port, login, pass, dbase, each `count=1`. -/
def render_sqlconf (content : String) (slot : SlotRec) : Except RErr String := do
  let h ← slotFieldGet slot.host "host"
  let p := slot.port.getD "3306"
  let u ← slotFieldGet slot.username "username"
  let pw ← slotFieldGet slot.password "password"
  let d ← slotFieldGet slot.dbname "dbname"
  let c1 ← renderStep "host" h content.data
  let c2 ← renderStep "port" p c1
  let c3 ← renderStep "login" u c2
  let c4 ← renderStep "pass" pw c3
  let c5 ← renderStep "dbase" d c4
  return String.mk c5

/-! ## secrets_manager.py -/

/-- `SecretsManagerSlots.standby_slot` (secrets_manager.py lines 45-51). -/
def standby_slot (active : String) : Except RErr String :=
  if active = "A" then .ok "B"
  else if active = "B" then .ok "A"
  else .error (.invalidSlotLabel active)

/-- `string.ascii_letters + string.digits`, the 62-character alphabet
of `generate_password`. -/
def passwordAlphabet : List Char :=
  "abcdefghijklmnopqrstuvwxyzABCDEFGHIJKLMNOPQRSTUVWXYZ0123456789".data

/-- `generate_password(length=30)` (secrets_manager.py lines 54-56).
`draw` is the outcome stream of `secrets.choice`: the index drawn from
the alphabet for each of the `length` positions. -/
def generate_password (draw : Nat → Fin passwordAlphabet.length) (length : Nat := 30) : String :=
  String.mk ((List.range length).map fun i => passwordAlphabet.get (draw i))

/-! ## Slot-store and admin-secret payloads -/

/-- The slot document `{active_slot, A, B}` (JSON payload of the slots
secret).  Components are optional: the source validates them on access
(`SlotSecretState.active_slot`, `SlotSecretState.slot`). -/
structure SlotsPayload where
  active_slot : Option String
  A : Option SlotRec
  B : Option SlotRec
  deriving DecidableEq, Repr

/-- `payload.get(name)` for a slot label. -/
def SlotsPayload.slotGet (p : SlotsPayload) (name : String) : Option SlotRec :=
  if name = "A" then p.A else if name = "B" then p.B else none

/-- `payload[name] = rec` for a slot label. -/
def SlotsPayload.slotSet (p : SlotsPayload) (name : String) (r : SlotRec) : SlotsPayload :=
  if name = "A" then { p with A := some r }
  else if name = "B" then { p with B := some r }
  else p

/-- The admin document `{host, port, username, password}`.  `host` and
`port` are read with defaults, `username`/`password` with `dict[...]`. -/
structure AdminPayload where
  host : Option String
  port : Option String
  username : Option String
  password : Option String
  deriving DecidableEq, Repr

/-- `SlotSecretState.active_slot` (secrets_manager.py lines 19-24). -/
def activeSlotOf (p : SlotsPayload) : Except RErr String :=
  match p.active_slot with
  | some a => if a = "A" || a = "B" then .ok a else .error (.invalidActiveSlot a)
  | none => .error (.invalidActiveSlot "None")

/-- `SlotSecretState.slot` (secrets_manager.py lines 26-30). -/
def slotOf (p : SlotsPayload) (name : String) : Except RErr SlotRec :=
  match p.slotGet name with
  | some r => .ok r
  | none => .error (.slotMissing name)

/-! ## World state, environment oracles, and the execution monad -/

/-- Externally visible calls issued by the orchestrator.  Connection
opens are recorded as well as mutations, so frame claims can state
both what happened and what did not. -/
inductive Event where
  | connOpen (user : String)
  | sqlUserUpsert (username password dbname : String)
  | sqlAlterAdmin (username newPassword : String)
  | fileWrite (content : String)
  | clusterPatch (host username password dbname : String)
  | restartTriggered
  | putSlotsSecret (p : SlotsPayload)
  | putAdminSecret (p : AdminPayload)
  deriving DecidableEq, Repr

/-- The world acted on by one rotation invocation: the two secret
documents, the on-disk sqlconf.php content, the cluster credential
mirror, the chronological event trace, the count of password draws,
and per-kind call counters consulted by the failure oracles. -/
structure St where
  slotsSecret : SlotsPayload
  adminSecret : AdminPayload
  file : String
  mirror : Option (String × String × String × String)
  trace : List Event
  draws : Nat
  writeN : Nat
  patchN : Nat
  restartN : Nat
  putN : Nat
  slotConnN : Nat
  deriving DecidableEq, Repr

/-- The environment's oracles: the stream of `generate_password`
outcomes, which passwords open an admin connection, the success of the
nth slot-validation connection, and the success of the nth
write/patch/restart/store-put infrastructure call.  `isalnum` is the
runtime's per-character `str.isalnum` classification (Unicode-wide in
Python). -/
structure Env where
  pw : Nat → String
  adminConnOk : String → Bool
  slotConnOk : Nat → Bool
  writeOk : Nat → Bool
  patchOk : Nat → Bool
  restartOk : Nat → Bool
  putOk : Nat → Bool
  isalnum : Char → Bool

/-- Execution monad: state plus Python exceptions.  The state at the
moment an exception escapes is retained (side effects before a raise
persist). -/
def M (α : Type) : Type := St → Except RErr α × St

instance : Monad M where
  pure a := fun s => (.ok a, s)
  bind x f := fun s =>
    match x s with
    | (.ok a, s1) => f a s1
    | (.error e, s1) => (.error e, s1)

def M.throw (e : RErr) : M α := fun s => (.error e, s)

def M.modify (f : St → St) : M Unit := fun s => (.ok (), f s)

/-- Python try/except: run the body; hand an escaping exception to the
handler together with the state at the raise. -/
def M.tryCatch (x : M α) (h : RErr → M α) : M α := fun s =>
  match x s with
  | (.ok a, s1) => (.ok a, s1)
  | (.error e, s1) => h e s1

def M.ofExcept : Except RErr α → M α
  | .ok a => fun s => (.ok a, s)
  | .error e => fun s => (.error e, s)

/-- Record an externally visible call. -/
def M.emit (e : Event) : M Unit := M.modify fun s => { s with trace := s.trace ++ [e] }

/-! ## Modelled external operations -/

/-- `SecretsManagerSlots.get_secret` on the slot document. -/
def get_slots_secret : M SlotsPayload := fun s => (.ok s.slotsSecret, s)

/-- `SecretsManagerSlots.get_secret` on the admin document. -/
def get_admin_secret : M AdminPayload := fun s => (.ok s.adminSecret, s)

/-- `put_payload` on the slot document (whole-document overwrite). -/
def put_slots_payload (env : Env) (p : SlotsPayload) : M Unit := fun s =>
  let n := s.putN
  let s1 := { s with putN := n + 1 }
  if env.putOk n then
    (.ok (), { s1 with slotsSecret := p, trace := s1.trace ++ [.putSlotsSecret p] })
  else (.error (.opFailed "put"), s1)

/-- `put_payload` on the admin document. -/
def put_admin_payload (env : Env) (p : AdminPayload) : M Unit := fun s =>
  let n := s.putN
  let s1 := { s with putN := n + 1 }
  if env.putOk n then
    (.ok (), { s1 with adminSecret := p, trace := s1.trace ++ [.putAdminSecret p] })
  else (.error (.opFailed "put"), s1)

/-- `pymysql.connect` as a given user; raises `OperationalError` when
the oracle refuses the password.  The attempt is recorded. -/
def admin_connect (env : Env) (user pw : String) : M Unit := fun s =>
  let s1 := { s with trace := s.trace ++ [.connOpen user] }
  if env.adminConnOk pw then (.ok (), s1) else (.error (.connFailed user), s1)

/-- The connection attempt inside `validate_rds_connection`, governed
by the call-indexed oracle. -/
def slot_conn_attempt (env : Env) (u : String) : M Unit := fun s =>
  let n := s.slotConnN
  let s1 := { s with slotConnN := n + 1, trace := s.trace ++ [.connOpen u] }
  if env.slotConnOk n then (.ok (), s1) else (.error (.connFailed u), s1)

/-- `validate_rds_connection` (validators.py lines 15-32): dict
accesses in the connect kwargs, then a round-trip probe. -/
def validate_rds_connection (env : Env) (slot : SlotRec) : M Unit := do
  let _h ← M.ofExcept (slotFieldGet slot.host "host")
  let u ← M.ofExcept (slotFieldGet slot.username "username")
  let _pw ← M.ofExcept (slotFieldGet slot.password "password")
  let _d ← M.ofExcept (slotFieldGet slot.dbname "dbname")
  slot_conn_attempt env u

/-- `validate_openemr_health` (validators.py lines 35-51): best-effort
probe; warnings only, never raises, no mutation. -/
def validate_openemr_health : M Unit := pure ()

/-- `update_k8s_db_secret` (k8s_refresh.py lines 26-54): patch the
cluster credential mirror with the slot's four fields. -/
def update_k8s_db_secret (env : Env) (slot : SlotRec) : M Unit := do
  let h ← M.ofExcept (slotFieldGet slot.host "host")
  let u ← M.ofExcept (slotFieldGet slot.username "username")
  let pw ← M.ofExcept (slotFieldGet slot.password "password")
  let d ← M.ofExcept (slotFieldGet slot.dbname "dbname")
  fun s =>
    let n := s.patchN
    let s1 := { s with patchN := n + 1 }
    if env.patchOk n then
      (.ok (), { s1 with mirror := some (h, u, pw, d),
                         trace := s1.trace ++ [.clusterPatch h u pw d] })
    else (.error (.opFailed "patch"), s1)

/-- `rollout_restart_deployment` (k8s_refresh.py lines 57-95): the
restart is triggered by the annotation patch, then the rollout wait
either converges or times out (the timeout is raised after the
trigger). -/
def rollout_restart_deployment (env : Env) : M Unit := fun s =>
  let n := s.restartN
  let s1 := { s with restartN := n + 1, trace := s.trace ++ [Event.restartTriggered] }
  if env.restartOk n then (.ok (), s1) else (.error (.opFailed "restart"), s1)

/-- `atomic_write` (efs_editor.py lines 66-95): on success the file
holds exactly the new content; a failure during write/rename leaves
the previous content (temp-file plus atomic rename). -/
def atomic_write (env : Env) (content : String) : M Unit := fun s =>
  let n := s.writeN
  let s1 := { s with writeN := n + 1 }
  if env.writeOk n then
    (.ok (), { s1 with file := content, trace := s1.trace ++ [.fileWrite content] })
  else (.error (.opFailed "write"), s1)

/-- `read_text` (efs_editor.py lines 98-99). -/
def read_text : M String := fun s => (.ok s.file, s)

/-- One call of `generate_password()` inside the orchestrator: the
next outcome of the environment's password stream (claim C9 treats
the character-level contract of `generate_password` itself). -/
def gen_password (env : Env) : M String := fun s =>
  (.ok (env.pw s.draws), { s with draws := s.draws + 1 })

/-! ## rotate.py — RotationOrchestrator -/

/-- One iteration body of `_load_admin_secret`'s slot-fallback loop
(rotate.py lines 331-347): when the slot's username equals the admin
username, try its password; `OperationalError` means continue,
success adopts and persists the password. -/
def try_slot_fallback (env : Env) (admin : AdminPayload) (user : String)
    (slot : SlotRec) : M (Option AdminPayload) :=
  if slot.username = some user then do
    let slotPw ← M.ofExcept (slotFieldGet slot.password "password")
    let ok ← M.tryCatch (do admin_connect env user slotPw; pure true)
      (fun e => match e with
        | .connFailed _ => pure false
        | e2 => M.throw e2)
    if ok then do
      let admin2 := { admin with password := some slotPw }
      put_admin_payload env admin2
      pure (some admin2)
    else pure none
  else pure none

/-- `_load_admin_secret` (rotate.py lines 308-352): use the stored
credential when it connects; otherwise search slots A then B for a
same-username working password, adopting and persisting it; otherwise
fail fatally (manual intervention). -/
def load_admin_secret (env : Env) : M AdminPayload := do
  let admin ← get_admin_secret
  let user ← M.ofExcept (slotFieldGet admin.username "username")
  let storedPw ← M.ofExcept (slotFieldGet admin.password "password")
  let storedOk ← M.tryCatch (do admin_connect env user storedPw; pure true)
    (fun e => match e with
      | .connFailed _ => pure false
      | e2 => M.throw e2)
  if storedOk then pure admin
  else do
    let rds ← get_slots_secret
    let slotA ← M.ofExcept (slotOf rds "A")
    let rA ← try_slot_fallback env admin user slotA
    match rA with
    | some a => pure a
    | none => do
      let slotB ← M.ofExcept (slotOf rds "B")
      let rB ← try_slot_fallback env admin user slotB
      match rB with
      | some a => pure a
      | none => M.throw .adminSecretInvalid

/-- `db_name.replace("_", "").isalnum()` (rotate.py line 362): Python's
`str.isalnum` is true for a non-empty string all of whose characters
the runtime classifies as alphanumeric. -/
def dbnameAllowed (isalnum : Char → Bool) (db : String) : Bool :=
  let stripped := db.data.filter fun c => c ≠ '_'
  !stripped.isEmpty && stripped.all isalnum

/-- `_upsert_openemr_db_user` (rotate.py lines 354-387): reload the
admin credential (a pre-flight connection), validate the dbname, then
connect as admin and run the CREATE USER / ALTER USER / GRANT / FLUSH
block (one `sqlUserUpsert` event). -/
def upsert_openemr_db_user (env : Env) (slot : SlotRec) : M Unit := do
  let admin ← load_admin_secret env
  let _adminHost ←
    (if admin.host.getD "" = "" then M.ofExcept (slotFieldGet slot.host "host")
     else pure (admin.host.getD ""))
  let adminUser ← M.ofExcept (slotFieldGet admin.username "username")
  let adminPw ← M.ofExcept (slotFieldGet admin.password "password")
  let dbName ← M.ofExcept (slotFieldGet slot.dbname "dbname")
  if dbnameAllowed env.isalnum dbName then do
    admin_connect env adminUser adminPw
    let u ← M.ofExcept (slotFieldGet slot.username "username")
    let pw ← M.ofExcept (slotFieldGet slot.password "password")
    M.emit (.sqlUserUpsert u pw dbName)
  else M.throw (.unsupportedDbname dbName)

/-- `_rotate_admin_password` (rotate.py lines 262-306): load, draw a
new password, ALTER via a connection with the old one, verify with a
fresh connection, persist. -/
def rotate_admin_password (env : Env) : M Unit := do
  let admin ← load_admin_secret env
  let username ← M.ofExcept (slotFieldGet admin.username "username")
  let oldPw ← M.ofExcept (slotFieldGet admin.password "password")
  let newPw ← gen_password env
  admin_connect env username oldPw
  M.emit (.sqlAlterAdmin username newPw)
  admin_connect env username newPw
  put_admin_payload env { admin with password := some newPw }

/-- `_ensure_slot_initialized` (rotate.py lines 255-260).  The
`setdefault` default argument `generate_password()` is evaluated
eagerly, so a draw is consumed even when the password is present. -/
def ensure_slot_initialized (env : Env) (slot : SlotRec)
    (fallbackHost fallbackDb : String) : M SlotRec := do
  let p ← gen_password env
  pure { username := some (slot.username.getD "openemr_slot")
       , password := some (slot.password.getD p)
       , host := some (slot.host.getD fallbackHost)
       , port := some (slot.port.getD "3306")
       , dbname := some (slot.dbname.getD fallbackDb) }

/-- Python `str(...)` of a possibly-missing dict value: `str(None)` is
the string `"None"`. -/
def pyStrOpt (v : Option String) : String := v.getD "None"

/-- `_slot_matches_sqlconf` (rotate.py lines 246-253). -/
def slot_matches_sqlconf (slot : SlotRec) (conf : Sqlconf) : Bool :=
  conf.host == some (pyStrOpt slot.host) &&
  conf.port.getD "3306" == slot.port.getD "3306" &&
  conf.username == some (pyStrOpt slot.username) &&
  conf.password == some (pyStrOpt slot.password) &&
  conf.dbname == some (pyStrOpt slot.dbname)

/-- `_bootstrap_slots_from_sqlconf` (rotate.py lines 190-231): two new
dedicated accounts from the snapshot's host/port/dbname with fresh
passwords; provision and persist them unless dry-run. -/
def bootstrap_slots_from_sqlconf (env : Env) (dry : Bool) (conf : Sqlconf)
    (rdsPayload : SlotsPayload) (active standby : String) : M Unit := do
  let host := conf.host.getD ""
  let port := conf.port.getD "3306"
  let dbname := conf.dbname.getD "openemr"
  let pa ← gen_password env
  let slotA : SlotRec := ⟨some "openemr_a", some pa, some host, some port, some dbname⟩
  let pb ← gen_password env
  let slotB : SlotRec := ⟨some "openemr_b", some pb, some host, some port, some dbname⟩
  if !dry then do
    upsert_openemr_db_user env slotA
    validate_rds_connection env slotA
    upsert_openemr_db_user env slotB
    validate_rds_connection env slotB
  let payload2 := (rdsPayload.slotSet active slotA).slotSet standby slotB
  let payload3 := { payload2 with active_slot := some active }
  if !dry then put_slots_payload env payload3

/-- `_rotate_old_slot` (rotate.py lines 130-149): re-fetch the store,
draw a new password for the old slot, provision and validate it
(unless dry-run), persist the updated document with the confirmed
active pointer (unless dry-run). -/
def rotate_old_slot (env : Env) (dry : Bool) (newActive oldSlot : String) : M Unit := do
  let rds ← get_slots_secret
  let newActiveRec ← M.ofExcept (slotOf rds newActive)
  let oldRec ← M.ofExcept (slotOf rds oldSlot)
  let p ← gen_password env
  let oldRec2 := { oldRec with password := some p }
  if !dry then do
    upsert_openemr_db_user env oldRec2
    validate_rds_connection env oldRec2
  if dry then pure ()
  else do
    let payload2 := (rds.slotSet oldSlot oldRec2).slotSet newActive newActiveRec
    put_slots_payload env { payload2 with active_slot := some newActive }

/-- `_reconcile_active_slot_to_standby` (rotate.py lines 233-244). -/
def reconcile_active_slot_to_standby (env : Env) (dry : Bool)
    (rds : SlotsPayload) (active standby : String) : M Unit := do
  let payload2 := { rds with active_slot := some standby }
  if !dry then put_slots_payload env payload2
  rotate_old_slot env dry standby active

/-- `_validate_runtime` (rotate.py lines 173-175). -/
def validate_runtime (env : Env) (slot : SlotRec) : M Unit := do
  validate_rds_connection env slot
  validate_openemr_health

/-- `_rollback` (rotate.py lines 151-171): restore the original
config content, re-point the cluster mirror at the pre-cycle active
slot, restart, validate. -/
def rollback (env : Env) (originalContent : String) (activeRec : SlotRec) : M Unit := do
  atomic_write env originalContent
  update_k8s_db_secret env activeRec
  rollout_restart_deployment env
  validate_runtime env activeRec

/-- Lines 84-128 of `rotate`: either the pointer-caught-up branch
(config matches active and the active label is "B"), or the full
rotation with its guarded cutover and rollback.  `cma` is the
(possibly bootstrap-overridden) `config_matches_active` flag. -/
def full_or_branch3 (env : Env) (dry : Bool) (rds : SlotsPayload)
    (active standby : String) (activeRec standbyRec : SlotRec) (cma : Bool) : M Unit := do
  if cma && active = "B" then do
    rotate_old_slot env dry active standby
    if !dry then rotate_admin_password env
  else do
    upsert_openemr_db_user env standbyRec
    validate_rds_connection env standbyRec
    let original ← read_text
    let updated ← M.ofExcept (render_sqlconf original standbyRec)
    if dry then pure ()
    else do
      M.tryCatch (do
          atomic_write env updated
          update_k8s_db_secret env standbyRec
          rollout_restart_deployment env
          validate_runtime env standbyRec
          put_slots_payload env { rds with active_slot := some standby })
        (fun e => do rollback env original activeRec; M.throw e)
      rotate_old_slot env dry standby active
      rotate_admin_password env

/-- `RotationOrchestrator.rotate` (rotate.py lines 38-128).  The
in-place `setdefault` mutation of the payload's aliased slot dicts is
modelled by carrying the ensured records in the local payload value
used by every later step that does not re-fetch. -/
def rotate (env : Env) (dry : Bool) : M Unit := do
  let rds0 ← get_slots_secret
  let active ← M.ofExcept (activeSlotOf rds0)
  let standby ← M.ofExcept (standby_slot active)
  if !dry then do
    let _ ← load_admin_secret env
    pure ()
  let content0 ← read_text
  let current := parse_sqlconf content0
  let activeRec0 ← M.ofExcept (slotOf rds0 active)
  let standbyRec0 ← M.ofExcept (slotOf rds0 standby)
  let fh1 ← M.ofExcept (slotFieldGet activeRec0.host "host")
  let fd1 ← M.ofExcept (slotFieldGet activeRec0.dbname "dbname")
  let standbyRec1 ← ensure_slot_initialized env standbyRec0 fh1 fd1
  let fh2 ← M.ofExcept (slotFieldGet standbyRec1.host "host")
  let fd2 ← M.ofExcept (slotFieldGet standbyRec1.dbname "dbname")
  let activeRec1 ← ensure_slot_initialized env activeRec0 fh2 fd2
  let rds1 := (rds0.slotSet standby standbyRec1).slotSet active activeRec1
  if !dry then do
    let sA ← M.ofExcept (slotOf rds1 "A")
    upsert_openemr_db_user env sA
    let sB ← M.ofExcept (slotOf rds1 "B")
    upsert_openemr_db_user env sB
  let cma0 := slot_matches_sqlconf activeRec1 current
  let cms0 := slot_matches_sqlconf standbyRec1 current
  if !cma0 && !cms0 then do
    bootstrap_slots_from_sqlconf env dry current rds1 active standby
    let rds2 ← get_slots_secret
    let activeRec2 ← M.ofExcept (slotOf rds2 active)
    let standbyRec2 ← M.ofExcept (slotOf rds2 standby)
    full_or_branch3 env dry rds2 active standby activeRec2 standbyRec2 true
  else if cms0 && !cma0 then do
    reconcile_active_slot_to_standby env dry rds1 active standby
    if !dry then rotate_admin_password env
  else
    full_or_branch3 env dry rds1 active standby activeRec1 standbyRec1 cma0

/-! ## Event-counting helpers for frame statements -/

def Event.isFileWrite : Event → Bool
  | .fileWrite _ => true
  | _ => false

def Event.isClusterPatch : Event → Bool
  | .clusterPatch _ _ _ _ => true
  | _ => false

def Event.isRestart : Event → Bool
  | .restartTriggered => true
  | _ => false

/-- Database writes: the user-provisioning SQL block or the admin
ALTER USER statement. -/
def Event.isDbWrite : Event → Bool
  | .sqlUserUpsert _ _ _ => true
  | .sqlAlterAdmin _ _ => true
  | _ => false

def Event.isStorePut : Event → Bool
  | .putSlotsSecret _ => true
  | .putAdminSecret _ => true
  | _ => false

/-- Any mutating operation: database write, config-file write, cluster
patch, restart, or secret-store write. -/
def Event.isMutation (e : Event) : Bool :=
  e.isFileWrite || e.isClusterPatch || e.isRestart || e.isDbWrite || e.isStorePut

def countEvents (p : Event → Bool) (t : List Event) : Nat := (t.filter p).length

/-! ## Generic instances and scenario-building definitions -/

instance {e a : Type} [DecidableEq e] [DecidableEq a] : DecidableEq (Except e a) := fun x y =>
  match x, y with
  | .ok v, .ok w => if h : v = w then isTrue (by rw [h]) else isFalse (by simp [h])
  | .error v, .error w => if h : v = w then isTrue (by rw [h]) else isFalse (by simp [h])
  | .ok _, .error _ => isFalse (by simp)
  | .error _, .ok _ => isFalse (by simp)

/-- A starting world for one invocation: both slot records present,
bookkeeping (trace, draw count) at zero, the per-kind call counters
arbitrary. -/
def mkStG (act : String) (arec brec : SlotRec) (adminS : AdminPayload) (file : String)
    (mirror : Option (String × String × String × String)) (wn pn rn ptn scn : Nat) : St :=
  ⟨⟨some act, some arec, some brec⟩, adminS, file, mirror, [], 0, wn, pn, rn, ptn, scn⟩

/-- The five fallible steps of the guarded cutover section (rotate.py
lines 100-120): config write, cluster-mirror patch, rollout restart,
post-cutover validation, slot-store pointer write. -/
inductive CutStep where
  | write
  | patch
  | restart
  | validate
  | put
  deriving DecidableEq, Repr

/-- The exception the source raises at each injected cutover failure
(`bu` is the standby username used by the failing validation). -/
def cutErr (bu : String) : CutStep → RErr
  | .write => .opFailed "write"
  | .patch => .opFailed "patch"
  | .restart => .opFailed "restart"
  | .validate => .connFailed bu
  | .put => .opFailed "put"

/-! ## Concrete scenario data (used by witnesses and counterexamples) -/

/-- A deterministic stand-in for the password stream. -/
def pwStream (n : Nat) : String := "pw" ++ toString n

/-- `str.isalnum` restricted to ASCII letters and digits (sufficient
for the ASCII-only scenario strings below). -/
def asciiAlnum (c : Char) : Bool := c.isAlpha || c.isDigit

/-- `str.isalnum` on the characters of the C10 scenario: Python also
classifies the Unicode letter é (U+00E9) as alphanumeric
(`"é".isalnum()` is `True`), which ASCII-only reasoning misses. -/
def pyAlnumScenario (c : Char) : Bool := c.isAlpha || c.isDigit || c = 'é'

/-- Environment in which every external call succeeds. -/
def envOK : Env :=
  { pw := pwStream
  , adminConnOk := fun _ => true
  , slotConnOk := fun _ => true
  , writeOk := fun _ => true
  , patchOk := fun _ => true
  , restartOk := fun _ => true
  , putOk := fun _ => true
  , isalnum := asciiAlnum }

def slotA0 : SlotRec :=
  ⟨some "openemr_a", some "pa", some "db.example.com", some "3306", some "openemr"⟩

def slotB0 : SlotRec :=
  ⟨some "openemr_b", some "pb", some "db.example.com", some "3306", some "openemr"⟩

/-- A well-formed sqlconf.php content whose five managed assignments
carry the given login and password. -/
def confMatching (u p : String) : String :=
  "<?php\n$host = 'db.example.com';\n$port = '3306';\n$login = '" ++ u ++
    "';\n$pass  = '" ++ p ++ "';\n$dbase = 'openemr';\n"

def admin0 : AdminPayload := ⟨some "db.example.com", some "3306", some "admin", some "adminpw"⟩

/-- A fresh-invocation world over the given payload and file. -/
def mkSt (payload : SlotsPayload) (file : String) : St :=
  { slotsSecret := payload, adminSecret := admin0, file := file,
    mirror := none, trace := [], draws := 0,
    writeN := 0, patchN := 0, restartN := 0, putN := 0, slotConnN := 0 }

/-- Steady state: active slot A, config matching slot A. -/
def stSteady : St := mkSt ⟨some "A", some slotA0, some slotB0⟩ (confMatching "openemr_a" "pa")

/-- Bootstrap scenario with prior active A: config matches neither slot. -/
def stBootA : St := mkSt ⟨some "A", some slotA0, some slotB0⟩ (confMatching "legacyuser" "legacypw")

/-! ## Structured sqlconf contents (for the render/parse round-trip)

A content is decomposed into inert chunks and managed assignments.
This shape is the formalization of "each of the five managed
assignments is present" used by the round-trip theorem; the
counterexamples show the unrestricted claim is false. -/

/-- A replacement or assignment value that cannot disturb the
patterns: non-empty, quote-free, newline-free, backslash-free (the
last also keeps the renderer's literal insertion faithful to
`re.subn`'s template processing). -/
def safeValB (v : List Char) : Bool :=
  !v.isEmpty && v.all fun c => !isQuote c && c ≠ '\n' && c ≠ '\\'

/-- One managed assignment `$var ws1 = ws2 q1 val q2 ws3 ;`. -/
structure Asn where
  ws1 : List Char
  ws2 : List Char
  q1 : Char
  val : List Char
  q2 : Char
  ws3 : List Char
  deriving DecidableEq, Repr

/-- Assignment well-formedness: space/tab padding, real quotes, safe
value. -/
def Asn.ok (a : Asn) : Bool :=
  (a.ws1.all fun c => c = ' ' || c = '\t') &&
  (a.ws2.all fun c => c = ' ' || c = '\t') &&
  (a.ws3.all fun c => c = ' ' || c = '\t') &&
  isQuote a.q1 && isQuote a.q2 && safeValB a.val

/-- The bytes of an assignment for variable `v`. -/
def Asn.render (a : Asn) (v : List Char) : List Char :=
  '$' :: v ++ a.ws1 ++ '=' :: a.ws2 ++ a.q1 :: a.val ++ a.q2 :: a.ws3 ++ [';']

/-- A content item: an opaque chunk or a managed assignment. -/
inductive Item where
  | chunk (c : List Char)
  | asn (v : List Char) (a : Asn)
  deriving DecidableEq, Repr

def Item.flat : Item → List Char
  | .chunk c => c
  | .asn v a => a.render v

/-- The content bytes of a decomposition. -/
def flatten (items : List Item) : List Char := (items.map Item.flat).flatten

/-- Line-start flag after consuming `cs`, starting from flag `ls`. -/
def lsAfter : Bool → List Char → Bool
  | ls, [] => ls
  | _, c :: cs => lsAfter (c = '\n') cs

/-- Chunk inertness: no dollar sign at any line start. -/
def noLsDollar : Bool → List Char → Bool
  | _, [] => true
  | ls, c :: cs => !(ls && c = '$') && noLsDollar (c = '\n') cs

/-- Decomposition well-formedness: chunks are inert, every assignment
begins at a line start and is internally well-formed (an assignment
never ends in a newline, so the flag after it is false). -/
def itemsOk : Bool → List Item → Bool
  | _, [] => true
  | ls, .chunk c :: rest => noLsDollar ls c && itemsOk (lsAfter ls c) rest
  | ls, .asn _ a :: rest => ls && a.ok && itemsOk false rest

/-- The assignment variables of a decomposition, in order. -/
def itemVars : List Item → List (List Char)
  | [] => []
  | .chunk _ :: rest => itemVars rest
  | .asn v _ :: rest => v :: itemVars rest

/-- The five managed php variables, in the substitution order of
`render_sqlconf`. -/
def managedVars : List (List Char) :=
  ["host".data, "port".data, "login".data, "pass".data, "dbase".data]

/-- Replace the value of the first assignment to `v`. -/
def updateVal (v val' : List Char) : List Item → List Item
  | [] => []
  | .chunk c :: rest => .chunk c :: updateVal v val' rest
  | .asn w a :: rest =>
    if w = v then .asn w { a with val := val' } :: rest
    else .asn w a :: updateVal v val' rest

/-- The sequential located-check of the five substitutions: whether
each php variable's pattern matches at its step of the pipeline. -/
def locatesAllFive (content : List Char) (h p u pw d : String) : Bool :=
  match renderOne "host".data h.data content with
  | none => false
  | some c1 =>
    match renderOne "port".data p.data c1 with
    | none => false
    | some c2 =>
      match renderOne "login".data u.data c2 with
      | none => false
      | some c3 =>
        match renderOne "pass".data pw.data c3 with
        | none => false
        | some c4 => (renderOne "dbase".data d.data c4).isSome

/-- A concrete decomposition of a standard sqlconf.php fragment into
chunks and the five managed assignments. -/
def itemsStd : List Item :=
  [ .chunk "<?php\n".data
  , .asn "host".data ⟨[' '], [' '], '\'', "db.example.com".data, '\'', []⟩
  , .chunk "\n".data
  , .asn "port".data ⟨[' '], [' '], '\'', "3306".data, '\'', []⟩
  , .chunk "\n".data
  , .asn "login".data ⟨[' '], [' '], '\'', "openemr_a".data, '\'', []⟩
  , .chunk "\n".data
  , .asn "pass".data ⟨[' ', ' '], [' '], '\'', "pa".data, '\'', []⟩
  , .chunk "\n".data
  , .asn "dbase".data ⟨[' '], [' '], '\'', "openemr".data, '\'', []⟩
  , .chunk "\n".data ]

/-! # Theorems

First the reduction lemmas for the monad and the mid-level
characterizations of the orchestrator's operations, then one theorem
per claim (with witnesses and counterexamples). -/

theorem M.run_bind (x : M α) (f : α → M β) (s : St) :
    (x >>= f) s = match x s with
      | (.ok a, s1) => f a s1
      | (.error e, s1) => (.error e, s1) := rfl

theorem M.run_pure (a : α) (s : St) : (pure a : M α) s = (.ok a, s) := rfl

/-! ## Mid-level characterizations (all-success paths) -/

/-- `_load_admin_secret` when the stored credential connects: the
stored payload is returned unchanged, nothing is persisted, one
connection attempt is recorded. -/
theorem load_ok (env : Env)
    (sl : SlotsPayload) (adh adp : Option String) (adu adpw : String)
    (f : String) (m : Option (String × String × String × String))
    (tr : List Event) (d wn pn rn ptn scn : Nat)
    (hc : env.adminConnOk adpw = true) :
    load_admin_secret env ⟨sl, ⟨adh, adp, some adu, some adpw⟩, f, m, tr, d, wn, pn, rn, ptn, scn⟩ =
      (.ok ⟨adh, adp, some adu, some adpw⟩,
       ⟨sl, ⟨adh, adp, some adu, some adpw⟩, f, m, tr ++ [.connOpen adu], d, wn, pn, rn, ptn, scn⟩) := by
  simp [load_admin_secret, get_admin_secret, slotFieldGet, admin_connect,
        M.tryCatch, M.ofExcept, hc, M.run_bind, M.run_pure]

/-- `_upsert_openemr_db_user` on a complete slot with a working stored
admin credential and an accepted dbname: the admin preflight
connection, the provisioning connection, and the SQL block. -/
theorem upsert_ok2 (env : Env)
    (sl : SlotsPayload) (adh adp : Option String) (adu adpw : String)
    (f : String) (m : Option (String × String × String × String))
    (tr : List Event) (d wn pn rn ptn scn : Nat)
    (su sp sh sprt sdb : String)
    (hc : env.adminConnOk adpw = true)
    (hdb : dbnameAllowed env.isalnum sdb = true) :
    upsert_openemr_db_user env ⟨some su, some sp, some sh, some sprt, some sdb⟩
        ⟨sl, ⟨adh, adp, some adu, some adpw⟩, f, m, tr, d, wn, pn, rn, ptn, scn⟩ =
      (.ok (),
       ⟨sl, ⟨adh, adp, some adu, some adpw⟩, f, m,
        tr ++ [.connOpen adu, .connOpen adu, .sqlUserUpsert su sp sdb], d, wn, pn, rn, ptn, scn⟩) := by
  simp only [upsert_openemr_db_user, M.run_bind]
  rw [load_ok env sl adh adp adu adpw f m tr d wn pn rn ptn scn hc]
  by_cases hh : adh.getD "" = "" <;>
    simp [slotFieldGet, admin_connect, hc, hdb, hh, M.ofExcept, M.run_bind,
          M.run_pure, M.emit, M.modify, List.append_assoc]

/-- `validate_rds_connection` on a complete slot when the oracle
accepts the nth validation connection. -/
theorem validate_ok2 (env : Env)
    (sl : SlotsPayload) (adminS : AdminPayload)
    (f : String) (m : Option (String × String × String × String))
    (tr : List Event) (d wn pn rn ptn scn : Nat)
    (su sp sh sprt sdb : String)
    (hs : env.slotConnOk scn = true) :
    validate_rds_connection env ⟨some su, some sp, some sh, some sprt, some sdb⟩
        ⟨sl, adminS, f, m, tr, d, wn, pn, rn, ptn, scn⟩ =
      (.ok (), ⟨sl, adminS, f, m, tr ++ [.connOpen su], d, wn, pn, rn, ptn, scn + 1⟩) := by
  simp [validate_rds_connection, slotFieldGet, slot_conn_attempt, hs,
        M.ofExcept, M.run_bind, M.run_pure]

/-- `_rotate_admin_password` on the all-success path: one ALTER, one
verification connection, one admin-secret write holding the freshly
drawn password. -/
theorem rotate_admin_ok (env : Env)
    (sl : SlotsPayload) (adh adp : Option String) (adu adpw : String)
    (f : String) (m : Option (String × String × String × String))
    (tr : List Event) (d wn pn rn ptn scn : Nat)
    (hc1 : env.adminConnOk adpw = true)
    (hc2 : env.adminConnOk (env.pw d) = true)
    (hput : env.putOk ptn = true) :
    rotate_admin_password env ⟨sl, ⟨adh, adp, some adu, some adpw⟩, f, m, tr, d, wn, pn, rn, ptn, scn⟩ =
      (.ok (),
       ⟨sl, ⟨adh, adp, some adu, some (env.pw d)⟩, f, m,
        tr ++ [.connOpen adu, .connOpen adu, .sqlAlterAdmin adu (env.pw d), .connOpen adu,
               .putAdminSecret ⟨adh, adp, some adu, some (env.pw d)⟩],
        d + 1, wn, pn, rn, ptn + 1, scn⟩) := by
  simp only [rotate_admin_password, M.run_bind]
  rw [load_ok env sl adh adp adu adpw f m tr d wn pn rn ptn scn hc1]
  simp [slotFieldGet, gen_password, admin_connect, put_admin_payload, hc1, hc2, hput,
        M.ofExcept, M.run_bind, M.run_pure, M.emit, M.modify, List.append_assoc]

/-- `_rotate_old_slot("B", "A")` on the all-success non-dry path: the
old slot A is re-fetched, given the freshly drawn password, provisioned
and validated, and the document is persisted with `active_slot = "B"`. -/
theorem rotate_old_BA (env : Env)
    (act : Option String) (brec : SlotRec)
    (adh adp : Option String) (adu adpw : String)
    (au ap ah aprt adb : String)
    (f : String) (m : Option (String × String × String × String))
    (tr : List Event) (d wn pn rn ptn scn : Nat)
    (hc : env.adminConnOk adpw = true)
    (hdb : dbnameAllowed env.isalnum adb = true)
    (hs : env.slotConnOk scn = true)
    (hput : env.putOk ptn = true) :
    rotate_old_slot env false "B" "A"
        ⟨⟨act, some ⟨some au, some ap, some ah, some aprt, some adb⟩, some brec⟩,
         ⟨adh, adp, some adu, some adpw⟩, f, m, tr, d, wn, pn, rn, ptn, scn⟩ =
      (.ok (),
       ⟨⟨some "B", some ⟨some au, some (env.pw d), some ah, some aprt, some adb⟩, some brec⟩,
        ⟨adh, adp, some adu, some adpw⟩, f, m,
        tr ++ [.connOpen adu, .connOpen adu, .sqlUserUpsert au (env.pw d) adb,
               .connOpen au,
               .putSlotsSecret ⟨some "B",
                 some ⟨some au, some (env.pw d), some ah, some aprt, some adb⟩, some brec⟩],
        d + 1, wn, pn, rn, ptn + 1, scn + 1⟩) := by
  simp only [rotate_old_slot, M.run_bind, M.run_pure, get_slots_secret, M.ofExcept,
             slotOf, SlotsPayload.slotGet, SlotsPayload.slotSet, gen_password]
  simp [upsert_ok2, validate_ok2, hc, hdb, hs, hput, put_slots_payload,
        M.run_bind, M.run_pure, List.append_assoc]

/-! ## Claim C8 -/

/-- C8: for every label x in A,B the standby function is an involution
into the other label (standby(standby x) = x, standby x in A,B,
standby x differs from x), and every other input raises the
invalid-input error. -/
theorem C8_standby_involution :
    (standby_slot "A" = .ok "B" ∧ standby_slot "B" = .ok "A") ∧
    (∀ x y : String, standby_slot x = .ok y →
      ((x = "A" ∨ x = "B") ∧ (y = "A" ∨ y = "B") ∧ y ≠ x ∧ standby_slot y = .ok x)) ∧
    (∀ x : String, x ≠ "A" → x ≠ "B" → standby_slot x = .error (.invalidSlotLabel x)) := by
  refine ⟨⟨rfl, rfl⟩, ?_, ?_⟩
  · intro x y h
    by_cases hA : x = "A"
    · subst hA
      simp only [standby_slot, if_pos rfl] at h
      cases h
      exact ⟨Or.inl rfl, Or.inr rfl, by decide, rfl⟩
    · by_cases hB : x = "B"
      · subst hB
        simp only [standby_slot] at h
        norm_num at h
        cases h
        exact ⟨Or.inr rfl, Or.inl rfl, by decide, rfl⟩
      · simp only [standby_slot, if_neg hA, if_neg hB] at h
        exact absurd h (by simp)
  · intro x hA hB
    simp only [standby_slot, if_neg hA, if_neg hB]

/-- Witness for C8 at the concrete inputs "A" and "C". -/
theorem C8_standby_involution_witness :
    standby_slot "C" = .error (.invalidSlotLabel "C") ∧
    ((("A" : String) = "A" ∨ ("A" : String) = "B") ∧
      (("B" : String) = "A" ∨ ("B" : String) = "B") ∧ ("B" : String) ≠ "A" ∧
      standby_slot "B" = .ok "A") :=
  ⟨C8_standby_involution.2.2 "C" (by decide) (by decide),
   C8_standby_involution.2.1 "A" "B" C8_standby_involution.1.1⟩

/-! ## Claim C9 -/

/-- C9: for every requested length n and every outcome of the random
source, the generated password has length n and draws every character
from the 62-character alphanumeric alphabet; the default length is 30. -/
theorem C9_generate_password :
    (∀ (draw : Nat → Fin passwordAlphabet.length) (n : Nat),
      (generate_password draw n).length = n
      ∧ ∀ c ∈ (generate_password draw n).data, c ∈ passwordAlphabet)
    ∧ (∀ draw : Nat → Fin passwordAlphabet.length, (generate_password draw).length = 30)
    ∧ passwordAlphabet.length = 62
    ∧ passwordAlphabet.all Char.isAlphanum = true := by
  refine ⟨?_, ?_, by decide, by decide⟩
  · intro draw n
    constructor
    · simp [generate_password, String.length]
    · intro c hc
      simp only [generate_password, String.mk] at hc
      simp only [List.mem_map] at hc
      obtain ⟨i, _, rfl⟩ := hc
      simp only [List.get_eq_getElem]
      exact List.getElem_mem _
  · intro draw
    simp [generate_password, String.length]

/-- Witness for C9 at a concrete draw stream and length 5. -/
theorem C9_generate_password_witness :
    (generate_password (fun _ => ⟨0, by decide⟩) 5).length = 5 ∧
    ∀ c ∈ (generate_password (fun _ => ⟨0, by decide⟩) 5).data, c ∈ passwordAlphabet :=
  C9_generate_password.1 (fun _ => ⟨0, by decide⟩) 5

/-! ## Claim C4 -/

/-- C4: drift-forward branch.  For every starting state with
`active_slot = "A"`, complete slot records, and a config snapshot
matching slot B's five fields but not slot A's, one non-dry-run cycle
(with all external calls succeeding) flips the stored `active_slot` to
"B", persists for slot A the freshly drawn password (distinct from its
prior one when the draw differs), keeps slot B unchanged, leaves the
config file and the cluster mirror untouched, and triggers no restart. -/
theorem C4_drift_forward (env : Env)
    (au ap ah aprt adb bu bp bh bprt bdb : String)
    (adh adp : Option String) (adu adpw : String)
    (file : String) (mirror : Option (String × String × String × String))
    (wn pn rn ptn scn : Nat)
    (hc : ∀ p, env.adminConnOk p = true)
    (hs : ∀ n, env.slotConnOk n = true)
    (hp : ∀ n, env.putOk n = true)
    (hdbA : dbnameAllowed env.isalnum adb = true)
    (hdbB : dbnameAllowed env.isalnum bdb = true)
    (hma : slot_matches_sqlconf ⟨some au, some ap, some ah, some aprt, some adb⟩
             (parse_sqlconf file) = false)
    (hms : slot_matches_sqlconf ⟨some bu, some bp, some bh, some bprt, some bdb⟩
             (parse_sqlconf file) = true)
    (hfresh : env.pw 2 ≠ ap) :
    ∃ st' : St,
      rotate env false
        (mkStG "A" ⟨some au, some ap, some ah, some aprt, some adb⟩
          ⟨some bu, some bp, some bh, some bprt, some bdb⟩
          ⟨adh, adp, some adu, some adpw⟩ file mirror wn pn rn ptn scn) = (.ok (), st') ∧
      st'.slotsSecret.active_slot = some "B" ∧
      st'.slotsSecret.A = some ⟨some au, some (env.pw 2), some ah, some aprt, some adb⟩ ∧
      st'.slotsSecret.A ≠ some ⟨some au, some ap, some ah, some aprt, some adb⟩ ∧
      st'.slotsSecret.B = some ⟨some bu, some bp, some bh, some bprt, some bdb⟩ ∧
      st'.file = file ∧ st'.mirror = mirror ∧
      countEvents Event.isFileWrite st'.trace = 0 ∧
      countEvents Event.isClusterPatch st'.trace = 0 ∧
      countEvents Event.isRestart st'.trace = 0 := by
  have hrun :
      rotate env false
          (mkStG "A" ⟨some au, some ap, some ah, some aprt, some adb⟩
            ⟨some bu, some bp, some bh, some bprt, some bdb⟩
            ⟨adh, adp, some adu, some adpw⟩ file mirror wn pn rn ptn scn) =
        (.ok (),
         ⟨⟨some "B", some ⟨some au, some (env.pw 2), some ah, some aprt, some adb⟩,
            some ⟨some bu, some bp, some bh, some bprt, some bdb⟩⟩,
          ⟨adh, adp, some adu, some (env.pw 3)⟩, file, mirror,
          [.connOpen adu,
           .connOpen adu, .connOpen adu, .sqlUserUpsert au ap adb,
           .connOpen adu, .connOpen adu, .sqlUserUpsert bu bp bdb,
           .putSlotsSecret ⟨some "B", some ⟨some au, some ap, some ah, some aprt, some adb⟩,
             some ⟨some bu, some bp, some bh, some bprt, some bdb⟩⟩,
           .connOpen adu, .connOpen adu, .sqlUserUpsert au (env.pw 2) adb,
           .connOpen au,
           .putSlotsSecret ⟨some "B", some ⟨some au, some (env.pw 2), some ah, some aprt, some adb⟩,
             some ⟨some bu, some bp, some bh, some bprt, some bdb⟩⟩,
           .connOpen adu, .connOpen adu, .sqlAlterAdmin adu (env.pw 3), .connOpen adu,
           .putAdminSecret ⟨adh, adp, some adu, some (env.pw 3)⟩],
          4, wn, pn, rn, ptn + 3, scn + 1⟩) := by
    simp [rotate, mkStG, reconcile_active_slot_to_standby, M.run_bind, M.run_pure,
          get_slots_secret, read_text, gen_password, M.ofExcept, activeSlotOf, standby_slot,
          slotOf, SlotsPayload.slotGet, SlotsPayload.slotSet, slotFieldGet,
          ensure_slot_initialized, put_slots_payload,
          load_ok, upsert_ok2, validate_ok2, rotate_admin_ok, rotate_old_BA,
          hc, hs, hp, hdbA, hdbB, hma, hms]
  refine ⟨_, hrun, rfl, rfl, ?_, rfl, rfl, rfl, ?_, ?_, ?_⟩
  · simp [hfresh]
  · simp [countEvents, Event.isFileWrite]
  · simp [countEvents, Event.isClusterPatch]
  · simp [countEvents, Event.isRestart]

/-- Witness for C4 at a concrete drift-forward state. -/
theorem C4_drift_forward_witness :
    ∃ st' : St,
      rotate envOK false
        (mkStG "A" ⟨some "openemr_a", some "pa", some "db.example.com", some "3306", some "openemr"⟩
          ⟨some "openemr_b", some "pb", some "db.example.com", some "3306", some "openemr"⟩
          ⟨some "db.example.com", some "3306", some "admin", some "adminpw"⟩
          (confMatching "openemr_b" "pb") none 0 0 0 0 0) = (.ok (), st') ∧
      st'.slotsSecret.active_slot = some "B" ∧
      st'.slotsSecret.A = some ⟨some "openemr_a", some (envOK.pw 2), some "db.example.com",
        some "3306", some "openemr"⟩ ∧
      st'.slotsSecret.A ≠ some ⟨some "openemr_a", some "pa", some "db.example.com",
        some "3306", some "openemr"⟩ ∧
      st'.slotsSecret.B = some ⟨some "openemr_b", some "pb", some "db.example.com",
        some "3306", some "openemr"⟩ ∧
      st'.file = confMatching "openemr_b" "pb" ∧ st'.mirror = none ∧
      countEvents Event.isFileWrite st'.trace = 0 ∧
      countEvents Event.isClusterPatch st'.trace = 0 ∧
      countEvents Event.isRestart st'.trace = 0 :=
  C4_drift_forward envOK "openemr_a" "pa" "db.example.com" "3306" "openemr"
    "openemr_b" "pb" "db.example.com" "3306" "openemr"
    (some "db.example.com") (some "3306") "admin" "adminpw"
    (confMatching "openemr_b" "pb") none 0 0 0 0 0
    (fun _ => rfl) (fun _ => rfl) (fun _ => rfl)
    (by decide) (by decide) (by decide) (by decide) (by decide)

/-! ## Claim C1 -/

/-- C1 counterexample: a bootstrap-branch starting state (the config
snapshot matches neither slot) whose prior `active_slot` is "A".  The
run continues from the bootstrap into the full-rotation branch
(because `rotate` overrides `config_matches_active` to true), so it
writes the config file once, patches the cluster mirror once,
triggers a restart, and flips `active_slot` to "B" — contradicting
the claim's "no config write, no cluster patch or restart, and
`active_slot` unchanged". -/
theorem C1_counterexample :
    slot_matches_sqlconf slotA0 (parse_sqlconf stBootA.file) = false ∧
    slot_matches_sqlconf slotB0 (parse_sqlconf stBootA.file) = false ∧
    stBootA.slotsSecret.active_slot = some "A" ∧
    (rotate envOK false stBootA).1 = .ok () ∧
    countEvents Event.isFileWrite (rotate envOK false stBootA).2.trace = 1 ∧
    countEvents Event.isClusterPatch (rotate envOK false stBootA).2.trace = 1 ∧
    countEvents Event.isRestart (rotate envOK false stBootA).2.trace = 1 ∧
    (rotate envOK false stBootA).2.slotsSecret.active_slot = some "B" := by
  decide

/-- C1 (amended): in the bootstrap branch with prior
`active_slot = "B"`, one non-dry-run cycle (all external calls
succeeding) provisions two new slot records with the dedicated
usernames `openemr_a`/`openemr_b` and freshly drawn passwords
(carrying the snapshot's host/port/dbname), leaves `active_slot` at
its prior value "B", and performs no config-file write, no cluster
patch, and no restart.  (With prior `active_slot = "A"` the cycle
instead proceeds into a full cutover — see the counterexample.) -/
theorem C1_bootstrap_activeB (env : Env)
    (au ap ah aprt adb bu bp bh bprt bdb : String)
    (adh adp : Option String) (adu adpw : String)
    (file : String) (mirror : Option (String × String × String × String))
    (wn pn rn ptn scn : Nat)
    (hc : ∀ p, env.adminConnOk p = true)
    (hs : ∀ n, env.slotConnOk n = true)
    (hp : ∀ n, env.putOk n = true)
    (hdbA : dbnameAllowed env.isalnum adb = true)
    (hdbB : dbnameAllowed env.isalnum bdb = true)
    (hdbC : dbnameAllowed env.isalnum ((parse_sqlconf file).dbname.getD "openemr") = true)
    (hmb : slot_matches_sqlconf ⟨some bu, some bp, some bh, some bprt, some bdb⟩
             (parse_sqlconf file) = false)
    (hma : slot_matches_sqlconf ⟨some au, some ap, some ah, some aprt, some adb⟩
             (parse_sqlconf file) = false) :
    ∃ st' : St,
      rotate env false
        (mkStG "B" ⟨some au, some ap, some ah, some aprt, some adb⟩
          ⟨some bu, some bp, some bh, some bprt, some bdb⟩
          ⟨adh, adp, some adu, some adpw⟩ file mirror wn pn rn ptn scn) = (.ok (), st') ∧
      st'.slotsSecret.active_slot = some "B" ∧
      st'.slotsSecret.A = some ⟨some "openemr_b", some (env.pw 4),
        some ((parse_sqlconf file).host.getD ""),
        some ((parse_sqlconf file).port.getD "3306"),
        some ((parse_sqlconf file).dbname.getD "openemr")⟩ ∧
      st'.slotsSecret.B = some ⟨some "openemr_a", some (env.pw 2),
        some ((parse_sqlconf file).host.getD ""),
        some ((parse_sqlconf file).port.getD "3306"),
        some ((parse_sqlconf file).dbname.getD "openemr")⟩ ∧
      st'.file = file ∧ st'.mirror = mirror ∧
      countEvents Event.isFileWrite st'.trace = 0 ∧
      countEvents Event.isClusterPatch st'.trace = 0 ∧
      countEvents Event.isRestart st'.trace = 0 := by
  have hrun :
      rotate env false
          (mkStG "B" ⟨some au, some ap, some ah, some aprt, some adb⟩
            ⟨some bu, some bp, some bh, some bprt, some bdb⟩
            ⟨adh, adp, some adu, some adpw⟩ file mirror wn pn rn ptn scn) =
        (.ok (),
         ⟨⟨some "B",
            some ⟨some "openemr_b", some (env.pw 4), some ((parse_sqlconf file).host.getD ""),
                  some ((parse_sqlconf file).port.getD "3306"),
                  some ((parse_sqlconf file).dbname.getD "openemr")⟩,
            some ⟨some "openemr_a", some (env.pw 2), some ((parse_sqlconf file).host.getD ""),
                  some ((parse_sqlconf file).port.getD "3306"),
                  some ((parse_sqlconf file).dbname.getD "openemr")⟩⟩,
          ⟨adh, adp, some adu, some (env.pw 5)⟩, file, mirror,
          [.connOpen adu,
           .connOpen adu, .connOpen adu, .sqlUserUpsert au ap adb,
           .connOpen adu, .connOpen adu, .sqlUserUpsert bu bp bdb,
           .connOpen adu, .connOpen adu,
           .sqlUserUpsert "openemr_a" (env.pw 2) ((parse_sqlconf file).dbname.getD "openemr"),
           .connOpen "openemr_a",
           .connOpen adu, .connOpen adu,
           .sqlUserUpsert "openemr_b" (env.pw 3) ((parse_sqlconf file).dbname.getD "openemr"),
           .connOpen "openemr_b",
           .putSlotsSecret ⟨some "B",
             some ⟨some "openemr_b", some (env.pw 3), some ((parse_sqlconf file).host.getD ""),
                   some ((parse_sqlconf file).port.getD "3306"),
                   some ((parse_sqlconf file).dbname.getD "openemr")⟩,
             some ⟨some "openemr_a", some (env.pw 2), some ((parse_sqlconf file).host.getD ""),
                   some ((parse_sqlconf file).port.getD "3306"),
                   some ((parse_sqlconf file).dbname.getD "openemr")⟩⟩,
           .connOpen adu, .connOpen adu,
           .sqlUserUpsert "openemr_b" (env.pw 4) ((parse_sqlconf file).dbname.getD "openemr"),
           .connOpen "openemr_b",
           .putSlotsSecret ⟨some "B",
             some ⟨some "openemr_b", some (env.pw 4), some ((parse_sqlconf file).host.getD ""),
                   some ((parse_sqlconf file).port.getD "3306"),
                   some ((parse_sqlconf file).dbname.getD "openemr")⟩,
             some ⟨some "openemr_a", some (env.pw 2), some ((parse_sqlconf file).host.getD ""),
                   some ((parse_sqlconf file).port.getD "3306"),
                   some ((parse_sqlconf file).dbname.getD "openemr")⟩⟩,
           .connOpen adu, .connOpen adu, .sqlAlterAdmin adu (env.pw 5), .connOpen adu,
           .putAdminSecret ⟨adh, adp, some adu, some (env.pw 5)⟩],
          6, wn, pn, rn, ptn + 3, scn + 3⟩) := by
    simp [rotate, mkStG, bootstrap_slots_from_sqlconf, full_or_branch3, M.run_bind, M.run_pure,
          get_slots_secret, read_text, gen_password, M.ofExcept, activeSlotOf, standby_slot,
          slotOf, SlotsPayload.slotGet, SlotsPayload.slotSet, slotFieldGet,
          ensure_slot_initialized, put_slots_payload,
          load_ok, upsert_ok2, validate_ok2, rotate_admin_ok, rotate_old_BA,
          hc, hs, hp, hdbA, hdbB, hdbC, hma, hmb]
  refine ⟨_, hrun, rfl, rfl, rfl, rfl, rfl, ?_, ?_, ?_⟩
  · simp [countEvents, Event.isFileWrite]
  · simp [countEvents, Event.isClusterPatch]
  · simp [countEvents, Event.isRestart]

/-- Witness for C1 (amended) at a concrete bootstrap state with prior
active slot "B". -/
theorem C1_bootstrap_activeB_witness :
    ∃ st' : St,
      rotate envOK false
        (mkStG "B" ⟨some "openemr_a", some "pa", some "db.example.com", some "3306", some "openemr"⟩
          ⟨some "openemr_b", some "pb", some "db.example.com", some "3306", some "openemr"⟩
          ⟨some "db.example.com", some "3306", some "admin", some "adminpw"⟩
          (confMatching "legacyuser" "legacypw") none 0 0 0 0 0) = (.ok (), st') ∧
      st'.slotsSecret.active_slot = some "B" ∧
      st'.slotsSecret.A = some ⟨some "openemr_b", some (envOK.pw 4),
        some ((parse_sqlconf (confMatching "legacyuser" "legacypw")).host.getD ""),
        some ((parse_sqlconf (confMatching "legacyuser" "legacypw")).port.getD "3306"),
        some ((parse_sqlconf (confMatching "legacyuser" "legacypw")).dbname.getD "openemr")⟩ ∧
      st'.slotsSecret.B = some ⟨some "openemr_a", some (envOK.pw 2),
        some ((parse_sqlconf (confMatching "legacyuser" "legacypw")).host.getD ""),
        some ((parse_sqlconf (confMatching "legacyuser" "legacypw")).port.getD "3306"),
        some ((parse_sqlconf (confMatching "legacyuser" "legacypw")).dbname.getD "openemr")⟩ ∧
      st'.file = confMatching "legacyuser" "legacypw" ∧ st'.mirror = none ∧
      countEvents Event.isFileWrite st'.trace = 0 ∧
      countEvents Event.isClusterPatch st'.trace = 0 ∧
      countEvents Event.isRestart st'.trace = 0 :=
  C1_bootstrap_activeB envOK "openemr_a" "pa" "db.example.com" "3306" "openemr"
    "openemr_b" "pb" "db.example.com" "3306" "openemr"
    (some "db.example.com") (some "3306") "admin" "adminpw"
    (confMatching "legacyuser" "legacypw") none 0 0 0 0 0
    (fun _ => rfl) (fun _ => rfl) (fun _ => rfl)
    (by decide) (by decide) (by decide) (by decide) (by decide)

/-! ## Claim C2 -/

/-- C2 (code bug): a dry-run invocation on a steady-state starting
state (config matches the active slot A) reports success but performs
a database write: the standby-slot provisioning at rotate.py line 90
(`self._upsert_openemr_db_user(standby_slot)`) is the only call site
of that operation not guarded by `dry_run`, so the CREATE USER /
ALTER USER / GRANT / FLUSH block executes.  No store, file, or
cluster write happens in this branch. -/
theorem C2_dry_run_db_write :
    slot_matches_sqlconf slotA0 (parse_sqlconf stSteady.file) = true ∧
    stSteady.slotsSecret.active_slot = some "A" ∧
    (rotate envOK true stSteady).1 = .ok () ∧
    countEvents Event.isDbWrite (rotate envOK true stSteady).2.trace = 1 ∧
    countEvents Event.isMutation (rotate envOK true stSteady).2.trace = 1 ∧
    (rotate envOK true stSteady).2.trace =
      [.connOpen "admin", .connOpen "admin", .sqlUserUpsert "openemr_b" "pb" "openemr",
       .connOpen "openemr_b"] := by
  decide

/-! ## Claim C7 -/

/-- C7: loading the admin credential.  (1) When the stored password
connects, the stored credential is returned unchanged and nothing is
persisted.  (2) When it does not and slot A carries the admin
username with a password that connects, that password is adopted and
persisted to the admin secret before being returned.  (3) Slots are
searched in the order A then B: with A's candidate failing and B's
connecting, B's password is adopted and persisted.  (4) When neither
the stored password nor any qualifying slot password connects, the
operation fails fatally (manual intervention) and nothing is
persisted. -/
theorem C7_load_admin_self_heal :
    (∀ (env : Env) (sl : SlotsPayload) (adh adp : Option String) (adu adpw : String)
       (f : String) (m : Option (String × String × String × String))
       (tr : List Event) (d wn pn rn ptn scn : Nat),
      env.adminConnOk adpw = true →
      load_admin_secret env ⟨sl, ⟨adh, adp, some adu, some adpw⟩, f, m, tr, d, wn, pn, rn, ptn, scn⟩ =
        (.ok ⟨adh, adp, some adu, some adpw⟩,
         ⟨sl, ⟨adh, adp, some adu, some adpw⟩, f, m, tr ++ [.connOpen adu], d, wn, pn, rn, ptn, scn⟩))
    ∧
    (∀ (env : Env) (act : Option String) (apwA : String) (xh xprt xdb : Option String)
       (brec : SlotRec) (adh adp : Option String) (adu adpw : String)
       (f : String) (m : Option (String × String × String × String))
       (tr : List Event) (d wn pn rn ptn scn : Nat),
      env.adminConnOk adpw = false →
      env.adminConnOk apwA = true →
      env.putOk ptn = true →
      load_admin_secret env
          ⟨⟨act, some ⟨some adu, some apwA, xh, xprt, xdb⟩, some brec⟩,
           ⟨adh, adp, some adu, some adpw⟩, f, m, tr, d, wn, pn, rn, ptn, scn⟩ =
        (.ok ⟨adh, adp, some adu, some apwA⟩,
         ⟨⟨act, some ⟨some adu, some apwA, xh, xprt, xdb⟩, some brec⟩,
          ⟨adh, adp, some adu, some apwA⟩, f, m,
          tr ++ [.connOpen adu, .connOpen adu, .putAdminSecret ⟨adh, adp, some adu, some apwA⟩],
          d, wn, pn, rn, ptn + 1, scn⟩))
    ∧
    (∀ (env : Env) (act : Option String) (apwA bpwB : String)
       (xh xprt xdb yh yprt ydb : Option String)
       (adh adp : Option String) (adu adpw : String)
       (f : String) (m : Option (String × String × String × String))
       (tr : List Event) (d wn pn rn ptn scn : Nat),
      env.adminConnOk adpw = false →
      env.adminConnOk apwA = false →
      env.adminConnOk bpwB = true →
      env.putOk ptn = true →
      load_admin_secret env
          ⟨⟨act, some ⟨some adu, some apwA, xh, xprt, xdb⟩,
             some ⟨some adu, some bpwB, yh, yprt, ydb⟩⟩,
           ⟨adh, adp, some adu, some adpw⟩, f, m, tr, d, wn, pn, rn, ptn, scn⟩ =
        (.ok ⟨adh, adp, some adu, some bpwB⟩,
         ⟨⟨act, some ⟨some adu, some apwA, xh, xprt, xdb⟩,
            some ⟨some adu, some bpwB, yh, yprt, ydb⟩⟩,
          ⟨adh, adp, some adu, some bpwB⟩, f, m,
          tr ++ [.connOpen adu, .connOpen adu, .connOpen adu,
                 .putAdminSecret ⟨adh, adp, some adu, some bpwB⟩],
          d, wn, pn, rn, ptn + 1, scn⟩))
    ∧
    (∀ (env : Env) (act : Option String) (auA bpwB : String)
       (apwA yh yprt ydb : Option String) (xh xprt xdb : Option String)
       (adh adp : Option String) (adu adpw : String)
       (f : String) (m : Option (String × String × String × String))
       (tr : List Event) (d wn pn rn ptn scn : Nat),
      env.adminConnOk adpw = false →
      auA ≠ adu →
      env.adminConnOk bpwB = false →
      load_admin_secret env
          ⟨⟨act, some ⟨some auA, apwA, xh, xprt, xdb⟩,
             some ⟨some adu, some bpwB, yh, yprt, ydb⟩⟩,
           ⟨adh, adp, some adu, some adpw⟩, f, m, tr, d, wn, pn, rn, ptn, scn⟩ =
        (.error .adminSecretInvalid,
         ⟨⟨act, some ⟨some auA, apwA, xh, xprt, xdb⟩,
            some ⟨some adu, some bpwB, yh, yprt, ydb⟩⟩,
          ⟨adh, adp, some adu, some adpw⟩, f, m,
          tr ++ [.connOpen adu, .connOpen adu],
          d, wn, pn, rn, ptn, scn⟩)) := by
  refine ⟨?_, ?_, ?_, ?_⟩
  · intro env sl adh adp adu adpw f m tr d wn pn rn ptn scn hc
    exact load_ok env sl adh adp adu adpw f m tr d wn pn rn ptn scn hc
  · intro env act apwA xh xprt xdb brec adh adp adu adpw f m tr d wn pn rn ptn scn h0 hA hput
    simp [load_admin_secret, get_admin_secret, slotFieldGet, admin_connect, try_slot_fallback,
          M.tryCatch, M.ofExcept, get_slots_secret, slotOf, SlotsPayload.slotGet,
          put_admin_payload, h0, hA, hput, M.run_bind, M.run_pure, List.append_assoc]
  · intro env act apwA bpwB xh xprt xdb yh yprt ydb adh adp adu adpw f m tr d wn pn rn ptn scn h0 hA hB hput
    simp [load_admin_secret, get_admin_secret, slotFieldGet, admin_connect, try_slot_fallback,
          M.tryCatch, M.ofExcept, get_slots_secret, slotOf, SlotsPayload.slotGet,
          put_admin_payload, h0, hA, hB, hput, M.run_bind, M.run_pure, List.append_assoc]
  · intro env act auA bpwB apwA yh yprt ydb xh xprt xdb adh adp adu adpw f m tr d wn pn rn ptn scn h0 hne hB
    simp [load_admin_secret, get_admin_secret, slotFieldGet, admin_connect, try_slot_fallback,
          M.tryCatch, M.ofExcept, get_slots_secret, slotOf, SlotsPayload.slotGet,
          put_admin_payload, M.throw, h0, hne, hB, M.run_bind, M.run_pure, List.append_assoc]

/-- Witness for C7 at a concrete state with a working stored credential. -/
theorem C7_load_admin_self_heal_witness :
    load_admin_secret envOK
        ⟨⟨some "A", some slotA0, some slotB0⟩,
         ⟨some "db.example.com", some "3306", some "admin", some "adminpw"⟩,
         "", none, [], 0, 0, 0, 0, 0, 0⟩ =
      (.ok ⟨some "db.example.com", some "3306", some "admin", some "adminpw"⟩,
       ⟨⟨some "A", some slotA0, some slotB0⟩,
        ⟨some "db.example.com", some "3306", some "admin", some "adminpw"⟩,
        "", none, [.connOpen "admin"], 0, 0, 0, 0, 0, 0⟩) :=
  C7_load_admin_self_heal.1 envOK ⟨some "A", some slotA0, some slotB0⟩
    (some "db.example.com") (some "3306") "admin" "adminpw"
    "" none [] 0 0 0 0 0 0 rfl

/-! ## Claim C3 -/

set_option maxHeartbeats 2000000 in
/-- C3: failed guarded cutover.  For every complete-slot steady-state
start (config matches active slot A) and every single injected failure
among the five guarded cutover steps (config write, cluster patch,
restart, post-cutover validation, store put), with the rollback's own
calls succeeding: the run re-raises the original triggering error, the
config file ends byte-identical to its pre-cycle content, the cluster
mirror is restored to (patched with) the pre-cycle active slot, the
stored slot document (including active_slot) is unchanged, nothing was
persisted to either secret, and exactly one restart beyond the failed
attempt's own is triggered for the restore (1 restart in total when
the failure precedes the attempt's restart, 2 in total otherwise). -/
theorem C3_cutover_failure_rollback (env : Env) (fs : CutStep)
    (au ap ah aprt adb bu bp bh bprt bdb : String)
    (adh adp : Option String) (adu adpw : String)
    (file updated : String) (mirror : Option (String × String × String × String))
    (wn pn rn ptn scn : Nat)
    (hc : ∀ p, env.adminConnOk p = true)
    (hdbA : dbnameAllowed env.isalnum adb = true)
    (hdbB : dbnameAllowed env.isalnum bdb = true)
    (hma : slot_matches_sqlconf ⟨some au, some ap, some ah, some aprt, some adb⟩
             (parse_sqlconf file) = true)
    (hmb : slot_matches_sqlconf ⟨some bu, some bp, some bh, some bprt, some bdb⟩
             (parse_sqlconf file) = false)
    (hrender : render_sqlconf file ⟨some bu, some bp, some bh, some bprt, some bdb⟩ = .ok updated)
    (hw0 : env.writeOk wn = if fs = CutStep.write then false else true)
    (hw1 : env.writeOk (wn + 1) = true)
    (hp0 : env.patchOk pn = if fs = CutStep.patch then false else true)
    (hp1 : env.patchOk (pn + 1) = true)
    (hr0 : env.restartOk rn = if fs = CutStep.restart then false else true)
    (hr1 : env.restartOk (rn + 1) = true)
    (hs0 : env.slotConnOk scn = true)
    (hs1 : env.slotConnOk (scn + 1) = if fs = CutStep.validate then false else true)
    (hs2 : env.slotConnOk (scn + 2) = true)
    (hpt0 : env.putOk ptn = if fs = CutStep.put then false else true) :
    ∃ st' : St,
      rotate env false
        (mkStG "A" ⟨some au, some ap, some ah, some aprt, some adb⟩
          ⟨some bu, some bp, some bh, some bprt, some bdb⟩
          ⟨adh, adp, some adu, some adpw⟩ file mirror wn pn rn ptn scn) =
        (.error (cutErr bu fs), st') ∧
      st'.file = file ∧
      st'.mirror = some (ah, au, ap, adb) ∧
      st'.slotsSecret = ⟨some "A", some ⟨some au, some ap, some ah, some aprt, some adb⟩,
        some ⟨some bu, some bp, some bh, some bprt, some bdb⟩⟩ ∧
      countEvents Event.isStorePut st'.trace = 0 ∧
      countEvents Event.isRestart st'.trace =
        (if fs = CutStep.write ∨ fs = CutStep.patch then 1 else 2) := by
  cases fs <;>
    [refine ⟨⟨⟨some "A", some ⟨some au, some ap, some ah, some aprt, some adb⟩,
        some ⟨some bu, some bp, some bh, some bprt, some bdb⟩⟩,
        ⟨adh, adp, some adu, some adpw⟩, file, some (ah, au, ap, adb),
        [.connOpen adu, .connOpen adu, .connOpen adu, .sqlUserUpsert au ap adb,
         .connOpen adu, .connOpen adu, .sqlUserUpsert bu bp bdb,
         .connOpen adu, .connOpen adu, .sqlUserUpsert bu bp bdb, .connOpen bu,
         .fileWrite file, .clusterPatch ah au ap adb, .restartTriggered, .connOpen au],
        2, wn + 2, pn + 1, rn + 1, ptn, scn + 2⟩, ?_, rfl, rfl, rfl, ?_, ?_⟩;
     refine ⟨⟨⟨some "A", some ⟨some au, some ap, some ah, some aprt, some adb⟩,
        some ⟨some bu, some bp, some bh, some bprt, some bdb⟩⟩,
        ⟨adh, adp, some adu, some adpw⟩, file, some (ah, au, ap, adb),
        [.connOpen adu, .connOpen adu, .connOpen adu, .sqlUserUpsert au ap adb,
         .connOpen adu, .connOpen adu, .sqlUserUpsert bu bp bdb,
         .connOpen adu, .connOpen adu, .sqlUserUpsert bu bp bdb, .connOpen bu,
         .fileWrite updated,
         .fileWrite file, .clusterPatch ah au ap adb, .restartTriggered, .connOpen au],
        2, wn + 2, pn + 2, rn + 1, ptn, scn + 2⟩, ?_, rfl, rfl, rfl, ?_, ?_⟩;
     refine ⟨⟨⟨some "A", some ⟨some au, some ap, some ah, some aprt, some adb⟩,
        some ⟨some bu, some bp, some bh, some bprt, some bdb⟩⟩,
        ⟨adh, adp, some adu, some adpw⟩, file, some (ah, au, ap, adb),
        [.connOpen adu, .connOpen adu, .connOpen adu, .sqlUserUpsert au ap adb,
         .connOpen adu, .connOpen adu, .sqlUserUpsert bu bp bdb,
         .connOpen adu, .connOpen adu, .sqlUserUpsert bu bp bdb, .connOpen bu,
         .fileWrite updated, .clusterPatch bh bu bp bdb, .restartTriggered,
         .fileWrite file, .clusterPatch ah au ap adb, .restartTriggered, .connOpen au],
        2, wn + 2, pn + 2, rn + 2, ptn, scn + 2⟩, ?_, rfl, rfl, rfl, ?_, ?_⟩;
     refine ⟨⟨⟨some "A", some ⟨some au, some ap, some ah, some aprt, some adb⟩,
        some ⟨some bu, some bp, some bh, some bprt, some bdb⟩⟩,
        ⟨adh, adp, some adu, some adpw⟩, file, some (ah, au, ap, adb),
        [.connOpen adu, .connOpen adu, .connOpen adu, .sqlUserUpsert au ap adb,
         .connOpen adu, .connOpen adu, .sqlUserUpsert bu bp bdb,
         .connOpen adu, .connOpen adu, .sqlUserUpsert bu bp bdb, .connOpen bu,
         .fileWrite updated, .clusterPatch bh bu bp bdb, .restartTriggered, .connOpen bu,
         .fileWrite file, .clusterPatch ah au ap adb, .restartTriggered, .connOpen au],
        2, wn + 2, pn + 2, rn + 2, ptn, scn + 3⟩, ?_, rfl, rfl, rfl, ?_, ?_⟩;
     refine ⟨⟨⟨some "A", some ⟨some au, some ap, some ah, some aprt, some adb⟩,
        some ⟨some bu, some bp, some bh, some bprt, some bdb⟩⟩,
        ⟨adh, adp, some adu, some adpw⟩, file, some (ah, au, ap, adb),
        [.connOpen adu, .connOpen adu, .connOpen adu, .sqlUserUpsert au ap adb,
         .connOpen adu, .connOpen adu, .sqlUserUpsert bu bp bdb,
         .connOpen adu, .connOpen adu, .sqlUserUpsert bu bp bdb, .connOpen bu,
         .fileWrite updated, .clusterPatch bh bu bp bdb, .restartTriggered, .connOpen bu,
         .fileWrite file, .clusterPatch ah au ap adb, .restartTriggered, .connOpen au],
        2, wn + 2, pn + 2, rn + 2, ptn + 1, scn + 3⟩, ?_, rfl, rfl, rfl, ?_, ?_⟩] <;>
  simp [rotate, mkStG, full_or_branch3, rollback, cutErr, M.run_bind, M.run_pure,
        get_slots_secret, read_text, gen_password, M.ofExcept, activeSlotOf, standby_slot,
        slotOf, SlotsPayload.slotGet, SlotsPayload.slotSet, slotFieldGet,
        ensure_slot_initialized, put_slots_payload, atomic_write,
        update_k8s_db_secret, rollout_restart_deployment, validate_runtime,
        validate_openemr_health, M.tryCatch, M.throw,
        load_ok, upsert_ok2, validate_ok2, validate_rds_connection, slot_conn_attempt,
        countEvents, Event.isStorePut, Event.isRestart,
        hc, hdbA, hdbB, hma, hmb, hrender, hw0, hw1, hp0, hp1, hr0, hr1, hs0, hs1, hs2, hpt0]

/-- Witness for C3: concrete steady-state start with the cluster-mirror
patch forced to fail. -/
theorem C3_cutover_failure_rollback_witness :
    ∃ st' : St,
      rotate { envOK with patchOk := fun n => n != 0 } false
        (mkStG "A" ⟨some "openemr_a", some "pa", some "db.example.com", some "3306", some "openemr"⟩
          ⟨some "openemr_b", some "pb", some "db.example.com", some "3306", some "openemr"⟩
          ⟨some "db.example.com", some "3306", some "admin", some "adminpw"⟩
          (confMatching "openemr_a" "pa") none 0 0 0 0 0) =
        (.error (cutErr "openemr_b" CutStep.patch), st') ∧
      st'.file = confMatching "openemr_a" "pa" ∧
      st'.mirror = some ("db.example.com", "openemr_a", "pa", "openemr") ∧
      st'.slotsSecret = ⟨some "A",
        some ⟨some "openemr_a", some "pa", some "db.example.com", some "3306", some "openemr"⟩,
        some ⟨some "openemr_b", some "pb", some "db.example.com", some "3306", some "openemr"⟩⟩ ∧
      countEvents Event.isStorePut st'.trace = 0 ∧
      countEvents Event.isRestart st'.trace =
        (if CutStep.patch = CutStep.write ∨ CutStep.patch = CutStep.patch then 1 else 2) :=
  C3_cutover_failure_rollback { envOK with patchOk := fun n => n != 0 } CutStep.patch
    "openemr_a" "pa" "db.example.com" "3306" "openemr"
    "openemr_b" "pb" "db.example.com" "3306" "openemr"
    (some "db.example.com") (some "3306") "admin" "adminpw"
    (confMatching "openemr_a" "pa") (confMatching "openemr_b" "pb") none 0 0 0 0 0
    (fun _ => rfl) (by decide) (by decide) (by decide) (by decide) (by decide)
    (by decide) (by decide) (by decide) (by decide) (by decide) (by decide)
    (by decide) (by decide) (by decide) (by decide)

/-! ## Claim C10 -/

/-- C10 counterexample: the dbname "café" contains a character ('é')
that is neither an ASCII letter, an ASCII digit, nor an underscore,
yet provisioning raises no error at all: Python's `str.isalnum` is
Unicode-wide and classifies 'é' as alphanumeric, so the guard passes
and the dbname is interpolated into the GRANT statement (the
`sqlUserUpsert` event carries it). -/
theorem C10_counterexample :
    ("café".data.any fun c => !(asciiAlnum c || c = '_')) = true ∧
    (upsert_openemr_db_user { envOK with isalnum := pyAlnumScenario }
        ⟨some "openemr_a", some "pa", some "db.example.com", some "3306", some "café"⟩
        (mkSt ⟨some "A", some slotA0, some slotB0⟩ "")).1 = .ok () ∧
    (upsert_openemr_db_user { envOK with isalnum := pyAlnumScenario }
        ⟨some "openemr_a", some "pa", some "db.example.com", some "3306", some "café"⟩
        (mkSt ⟨some "A", some slotA0, some slotB0⟩ "")).2.trace =
      [.connOpen "admin", .connOpen "admin", .sqlUserUpsert "openemr_a" "pa" "café"] := by
  decide

/-- C10 (amended): the dbname guard of `_upsert_openemr_db_user`
rejects, before issuing any SQL and before opening its own
provisioning connection, every dbname whose underscore-stripped form
is empty or contains a character the runtime's `isalnum`
classification (Unicode-wide in Python, not ASCII-only) rejects; the
admin-credential preflight connection inside `_load_admin_secret`
does occur first.  Conversely, a run that completes successfully — and
hence interpolates the dbname into the GRANT statement — is only
possible when the guard accepts the dbname. -/
theorem C10_dbname_guard :
    (∀ (env : Env) (sl : SlotsPayload) (adh adp : Option String) (adu adpw : String)
       (f : String) (m : Option (String × String × String × String))
       (tr : List Event) (d wn pn rn ptn scn : Nat) (su sp sh sprt sdb : String),
      env.adminConnOk adpw = true →
      dbnameAllowed env.isalnum sdb = false →
      upsert_openemr_db_user env ⟨some su, some sp, some sh, some sprt, some sdb⟩
          ⟨sl, ⟨adh, adp, some adu, some adpw⟩, f, m, tr, d, wn, pn, rn, ptn, scn⟩ =
        (.error (.unsupportedDbname sdb),
         ⟨sl, ⟨adh, adp, some adu, some adpw⟩, f, m, tr ++ [.connOpen adu],
          d, wn, pn, rn, ptn, scn⟩))
    ∧
    (∀ (env : Env) (st : St) (su sp sh sprt sdb : String),
      (upsert_openemr_db_user env ⟨some su, some sp, some sh, some sprt, some sdb⟩ st).1 =
        .ok () →
      dbnameAllowed env.isalnum sdb = true) := by
  constructor
  · intro env sl adh adp adu adpw f m tr d wn pn rn ptn scn su sp sh sprt sdb hc hbad
    simp only [upsert_openemr_db_user, M.run_bind]
    rw [load_ok env sl adh adp adu adpw f m tr d wn pn rn ptn scn hc]
    by_cases hh : adh.getD "" = "" <;>
      simp [slotFieldGet, hbad, hh, M.ofExcept, M.throw, M.run_bind, M.run_pure]
  · intro env st su sp sh sprt sdb hok
    by_cases hdb : dbnameAllowed env.isalnum sdb = true
    · exact hdb
    · exfalso
      simp only [upsert_openemr_db_user, M.run_bind] at hok
      rcases hload : load_admin_secret env st with ⟨r, s1⟩
      rw [hload] at hok
      cases r with
      | error e => simp at hok
      | ok a =>
        simp only [] at hok
        rcases hhost : (if a.host.getD "" = "" then M.ofExcept (slotFieldGet (some sh) "host")
          else pure (a.host.getD "")) s1 with ⟨r2, s2⟩
        rw [hhost] at hok
        cases r2 with
        | error e => simp at hok
        | ok ah2 =>
          simp only [] at hok
          rcases hu : M.ofExcept (slotFieldGet a.username "username") s2 with ⟨r3, s3⟩
          rw [hu] at hok
          cases r3 with
          | error e => simp at hok
          | ok au2 =>
            simp only [] at hok
            rcases hpw : M.ofExcept (slotFieldGet a.password "password") s3 with ⟨r4, s4⟩
            rw [hpw] at hok
            cases r4 with
            | error e => simp at hok
            | ok apw2 =>
              simp only [] at hok
              simp [slotFieldGet, M.ofExcept, M.run_bind, M.run_pure, hdb, M.throw] at hok

/-- Witness for C10 (amended) at the concrete dbname "b@d". -/
theorem C10_dbname_guard_witness :
    upsert_openemr_db_user envOK
        ⟨some "openemr_a", some "pa", some "db.example.com", some "3306", some "b@d"⟩
        ⟨⟨some "A", some slotA0, some slotB0⟩,
         ⟨some "db.example.com", some "3306", some "admin", some "adminpw"⟩,
         "", none, [], 0, 0, 0, 0, 0, 0⟩ =
      (.error (.unsupportedDbname "b@d"),
       ⟨⟨some "A", some slotA0, some slotB0⟩,
        ⟨some "db.example.com", some "3306", some "admin", some "adminpw"⟩,
        "", none, [.connOpen "admin"], 0, 0, 0, 0, 0, 0⟩) :=
  C10_dbname_guard.1 envOK ⟨some "A", some slotA0, some slotB0⟩
    (some "db.example.com") (some "3306") "admin" "adminpw"
    "" none [] 0 0 0 0 0 0
    "openemr_a" "pa" "db.example.com" "3306" "b@d" rfl (by decide)

/-! ## Claim C5: the matcher theory for well-formed contents

`scan_items` shows the leftmost multiline match of a managed
variable's pattern on a well-formed decomposition is exactly that
variable's assignment; the update lemmas push one `re.subn`
substitution through the decomposition. -/

theorem matchLit_self (xs : List Char) : ∀ t, matchLit xs (xs ++ t) = some t := by
  induction xs with
  | nil => intro t; rfl
  | cons x xs ih => intro t; simp [matchLit, ih]

theorem spanSpace_append (ws : List Char) (c : Char) (t : List Char)
    (hws : ∀ x ∈ ws, pyIsSpace x = true) (hc : pyIsSpace c = false) :
    spanSpace (ws ++ c :: t) = (ws, c :: t) := by
  induction ws with
  | nil => simp [spanSpace, hc]
  | cons w ws ih =>
    have hw : pyIsSpace w = true := hws w (by simp)
    have ih2 := ih fun x hx => hws x (by simp [hx])
    simp [spanSpace, hw, ih2]

theorem spanNonQuote_append (v : List Char) (q : Char) (t : List Char)
    (hv : ∀ x ∈ v, isQuote x = false) (hq : isQuote q = true) :
    spanNonQuote (v ++ q :: t) = (v, q :: t) := by
  induction v with
  | nil => simp [spanNonQuote, hq]
  | cons x v ih =>
    have hx : isQuote x = false := hv x (by simp)
    have ih2 := ih fun y hy => hv y (by simp [hy])
    simp [spanNonQuote, hx, ih2]

theorem quote_not_space {c : Char} (h : isQuote c = true) : pyIsSpace c = false := by
  rcases (by simpa [isQuote] using h : c = '\'' ∨ c = '"') with rfl | rfl <;> rfl

theorem tryMatch_not_dollar {c : Char} (v cs : List Char) (h : ¬c = '$') :
    tryMatch v (c :: cs) = none := by
  simp [tryMatch, h]

theorem Asn.ok_spec {a : Asn} (h : a.ok = true) :
    (∀ x ∈ a.ws1, pyIsSpace x = true) ∧ (∀ x ∈ a.ws2, pyIsSpace x = true) ∧
    (∀ x ∈ a.ws3, pyIsSpace x = true) ∧ isQuote a.q1 = true ∧ isQuote a.q2 = true ∧
    a.val ≠ [] ∧ (∀ x ∈ a.val, isQuote x = false) ∧ (∀ x ∈ a.val, ¬x = '\n') := by
  simp only [Asn.ok, safeValB, Bool.and_eq_true, List.all_eq_true, Bool.not_eq_true',
    List.isEmpty_eq_false, ne_eq] at h
  obtain ⟨⟨⟨⟨⟨h1, h2⟩, h3⟩, hq1⟩, hq2⟩, hne, hval⟩ := h
  refine ⟨?_, ?_, ?_, hq1, hq2, hne, ?_, ?_⟩
  · intro x hx
    rcases (by simpa using h1 x hx : x = ' ' ∨ x = '\t') with rfl | rfl <;> rfl
  · intro x hx
    rcases (by simpa using h2 x hx : x = ' ' ∨ x = '\t') with rfl | rfl <;> rfl
  · intro x hx
    rcases (by simpa using h3 x hx : x = ' ' ∨ x = '\t') with rfl | rfl <;> rfl
  · intro x hx
    have := hval x hx
    simp only [Bool.and_eq_true, Bool.not_eq_true', decide_eq_true_eq] at this
    exact this.1.1
  · intro x hx
    have := hval x hx
    simp only [Bool.and_eq_true, Bool.not_eq_true', decide_eq_true_eq] at this
    exact this.1.2

theorem tryMatch_asn_self (v : List Char) (a : Asn) (t : List Char) (hok : a.ok = true) :
    tryMatch v (a.render v ++ t) =
      some ⟨'$' :: v ++ a.ws1 ++ '=' :: a.ws2 ++ [a.q1], a.val, a.q2 :: a.ws3 ++ [';'], t⟩ := by
  obtain ⟨hws1, hws2, hws3, hq1, hq2, hne, hnq, _⟩ := Asn.ok_spec hok
  simp only [Asn.render, List.cons_append, List.append_assoc]
  rw [tryMatch]
  simp only [if_pos rfl, if_true, eq_self_iff_true, List.nil_append]
  rw [matchLit_self]
  simp only []
  rw [spanSpace_append a.ws1 '=' _ hws1 (by rfl)]
  simp only [if_pos rfl, if_true, eq_self_iff_true]
  rw [spanSpace_append a.ws2 a.q1 _ hws2 (quote_not_space hq1)]
  simp only [hq1, if_true]
  rw [spanNonQuote_append a.val a.q2 _ hnq hq2]
  simp only [List.isEmpty_eq_true]
  rw [if_neg hne]
  simp only [hq2, if_true]
  rw [spanSpace_append a.ws3 ';' t hws3 (by rfl)]
  simp [List.append_assoc]

theorem matchLit_managed_ne (v w : List Char) (hv : v ∈ managedVars) (hw : w ∈ managedVars)
    (hne : v ≠ w) : ∀ t, matchLit v (w ++ t) = none := by
  intro t
  simp only [managedVars, List.mem_cons, List.not_mem_nil, or_false] at hv hw
  rcases hv with rfl | rfl | rfl | rfl | rfl <;>
    rcases hw with rfl | rfl | rfl | rfl | rfl <;>
    first
    | exact absurd rfl hne
    | rfl

theorem managed_no_newline (v : List Char) (hv : v ∈ managedVars) : ∀ x ∈ v, ¬x = '\n' := by
  simp only [managedVars, List.mem_cons, List.not_mem_nil, or_false] at hv
  rcases hv with rfl | rfl | rfl | rfl | rfl <;> decide

theorem tryMatch_asn_other (v w : List Char) (a : Asn) (t : List Char)
    (hv : v ∈ managedVars) (hw : w ∈ managedVars) (hne : v ≠ w) :
    tryMatch v (a.render w ++ t) = none := by
  simp only [Asn.render, List.cons_append, List.append_assoc]
  rw [tryMatch]
  simp only [if_pos rfl, if_true, eq_self_iff_true, List.nil_append]
  rw [matchLit_managed_ne v w hv hw hne]

theorem scanFrom_chunk (v : List Char) (c : List Char) : ∀ (ls : Bool) (t : List Char),
    noLsDollar ls c = true →
    scanFrom v ls (c ++ t) = (scanFrom v (lsAfter ls c) t).map fun pm => (c ++ pm.1, pm.2) := by
  induction c with
  | nil =>
    intro ls t _
    simp [lsAfter]
  | cons c0 cs ih =>
    intro ls t h
    simp only [noLsDollar, Bool.and_eq_true, Bool.not_eq_true', Bool.and_eq_false_iff] at h
    obtain ⟨h0, htail⟩ := h
    simp only [List.cons_append, scanFrom, List.append_eq]
    have hnotry : (if ls = true then tryMatch v (c0 :: (cs ++ t)) else none) = none := by
      cases ls with
      | false => rfl
      | true =>
        simp only [if_true]
        rcases h0 with h0 | h0
        · simp at h0
        · exact tryMatch_not_dollar _ _ (by simpa using h0)
    rw [hnotry]
    simp only []
    rw [ih (c0 = '\n') (t := t) htail]
    simp only [lsAfter]
    cases scanFrom v (lsAfter (c0 = '\n') cs) t <;> simp

theorem noLsDollar_false_of_no_newline (c : List Char) (h : ∀ x ∈ c, ¬x = '\n') :
    noLsDollar false c = true := by
  induction c with
  | nil => rfl
  | cons x cs ih =>
    have hx : ¬x = '\n' := h x (by simp)
    simp [noLsDollar, hx, ih fun y hy => h y (by simp [hy])]

theorem lsAfter_false_of_no_newline (c : List Char) (h : ∀ x ∈ c, ¬x = '\n') :
    lsAfter false c = false := by
  induction c with
  | nil => rfl
  | cons x cs ih =>
    have hx : ¬x = '\n' := h x (by simp)
    simp [lsAfter, hx, ih fun y hy => h y (by simp [hy])]

theorem quote_ne_newline {c : Char} (h : isQuote c = true) : ¬c = '\n' := by
  rcases (by simpa [isQuote] using h : c = '\'' ∨ c = '"') with rfl | rfl <;> decide

theorem Asn.ws_no_newline {a : Asn} (h : a.ok = true) :
    (∀ x ∈ a.ws1, ¬x = '\n') ∧ (∀ x ∈ a.ws2, ¬x = '\n') ∧ (∀ x ∈ a.ws3, ¬x = '\n') := by
  simp only [Asn.ok, Bool.and_eq_true, List.all_eq_true] at h
  obtain ⟨⟨⟨⟨⟨h1, h2⟩, h3⟩, _⟩, _⟩, _⟩ := h
  refine ⟨?_, ?_, ?_⟩ <;> intro x hx
  · rcases (by simpa using h1 x hx : x = ' ' ∨ x = '\t') with rfl | rfl <;> decide
  · rcases (by simpa using h2 x hx : x = ' ' ∨ x = '\t') with rfl | rfl <;> decide
  · rcases (by simpa using h3 x hx : x = ' ' ∨ x = '\t') with rfl | rfl <;> decide

theorem render_tail_no_newline (w : List Char) (a : Asn)
    (hw : w ∈ managedVars) (hok : a.ok = true) :
    ∀ x ∈ w ++ a.ws1 ++ '=' :: a.ws2 ++ a.q1 :: a.val ++ a.q2 :: a.ws3 ++ [';'], ¬x = '\n' := by
  obtain ⟨hw1, hw2, hw3⟩ := Asn.ws_no_newline hok
  obtain ⟨_, _, _, hq1, hq2, _, _, hvnl⟩ := Asn.ok_spec hok
  intro x hx
  simp only [List.mem_append, List.mem_cons, List.mem_singleton] at hx
  rcases hx with ((((hx | hx) | hx) | hx) | hx) | hx
  · exact managed_no_newline w hw x hx
  · exact hw1 x hx
  · rcases hx with rfl | hx
    · decide
    · exact hw2 x hx
  · rcases hx with rfl | hx
    · exact quote_ne_newline hq1
    · exact hvnl x hx
  · rcases hx with rfl | hx
    · exact quote_ne_newline hq2
    · exact hw3 x hx
  · rcases hx with rfl | hx
    · decide
    · simp at hx

theorem scanFrom_asn_other (v w : List Char) (a : Asn) (t : List Char)
    (hv : v ∈ managedVars) (hw : w ∈ managedVars) (hne : v ≠ w) (hok : a.ok = true) :
    scanFrom v true (a.render w ++ t) =
      (scanFrom v false t).map fun pm => (a.render w ++ pm.1, pm.2) := by
  have htail := render_tail_no_newline w a hw hok
  have h1 : tryMatch v ('$' ::
      ((w ++ a.ws1 ++ '=' :: a.ws2 ++ a.q1 :: a.val ++ a.q2 :: a.ws3 ++ [';']) ++ t)) = none := by
    have := tryMatch_asn_other v w a t hv hw hne
    simpa [Asn.render, List.cons_append, List.append_assoc] using this
  have hr : a.render w = '$' :: (w ++ a.ws1 ++ '=' :: a.ws2 ++ a.q1 :: a.val ++ a.q2 :: a.ws3 ++ [';']) := rfl
  rw [hr]
  rw [List.cons_append]
  rw [scanFrom]
  rw [if_pos rfl] at *
  rw [h1]
  simp only []
  rw [scanFrom_chunk v _ _ t (by
    exact noLsDollar_false_of_no_newline _ htail)]
  rw [show (decide ('$' = '\n') : Bool) = false from rfl]
  rw [lsAfter_false_of_no_newline _ htail]
  cases scanFrom v false t <;> simp [List.append_assoc]

theorem scanFrom_asn_self (v : List Char) (a : Asn) (t : List Char) (hok : a.ok = true) :
    scanFrom v true (a.render v ++ t) =
      some ([], ⟨'$' :: v ++ a.ws1 ++ '=' :: a.ws2 ++ [a.q1], a.val,
            a.q2 :: a.ws3 ++ [';'], t⟩) := by
  have h1 := tryMatch_asn_self v a t hok
  have hr : a.render v ++ t = '$' ::
      ((v ++ a.ws1 ++ '=' :: a.ws2 ++ a.q1 :: a.val ++ a.q2 :: a.ws3 ++ [';']) ++ t) := by
    simp [Asn.render, List.cons_append]
  rw [hr] at h1 ⊢
  rw [scanFrom]
  rw [if_pos rfl]
  rw [h1]

theorem flatten_nil : flatten [] = [] := rfl

theorem flatten_cons_chunk (c : List Char) (items : List Item) :
    flatten (.chunk c :: items) = c ++ flatten items := by
  simp [flatten, Item.flat]

theorem flatten_cons_asn (v : List Char) (a : Asn) (items : List Item) :
    flatten (.asn v a :: items) = a.render v ++ flatten items := by
  simp [flatten, Item.flat]

theorem scan_items (v : List Char) (hv : v ∈ managedVars) (a : Asn) :
    ∀ (pre : List Item) (ls : Bool) (post : List Item),
    itemsOk ls (pre ++ .asn v a :: post) = true →
    (∀ w ∈ itemVars pre, w ∈ managedVars) →
    v ∉ itemVars pre →
    scanFrom v ls (flatten (pre ++ .asn v a :: post)) =
      some (flatten pre, ⟨'$' :: v ++ a.ws1 ++ '=' :: a.ws2 ++ [a.q1], a.val,
            a.q2 :: a.ws3 ++ [';'], flatten post⟩) := by
  intro pre
  induction pre with
  | nil =>
    intro ls post hwf _ _
    simp only [List.nil_append, itemsOk, Bool.and_eq_true] at hwf
    obtain ⟨⟨hls, hok⟩, _⟩ := hwf
    rw [List.nil_append, flatten_cons_asn, flatten_nil]
    rw [show ls = true by simpa using hls]
    exact scanFrom_asn_self v a _ hok
  | cons it pre ih =>
    intro ls post hwf hvars hnot
    cases it with
    | chunk c =>
      rw [List.cons_append] at hwf
      simp only [itemsOk, Bool.and_eq_true] at hwf
      obtain ⟨hc, hrest⟩ := hwf
      rw [List.cons_append, flatten_cons_chunk, flatten_cons_chunk]
      rw [scanFrom_chunk v c ls _ hc]
      rw [ih (lsAfter ls c) post hrest (fun w hw => hvars w (by simpa [itemVars] using hw))
            (by simpa [itemVars] using hnot)]
      simp
    | asn w b =>
      have hwm : w ∈ managedVars := hvars w (by simp [itemVars])
      have hne : v ≠ w := by
        intro he
        exact hnot (by simp [itemVars, he])
      rw [List.cons_append] at hwf
      simp only [itemsOk, Bool.and_eq_true] at hwf
      obtain ⟨⟨hls, hbok⟩, hrest⟩ := hwf
      rw [List.cons_append, flatten_cons_asn, flatten_cons_asn]
      rw [show ls = true by simpa using hls]
      rw [scanFrom_asn_other v w b _ hv hwm hne hbok]
      rw [ih false post hrest (fun x hx => hvars x (by simp [itemVars]; exact Or.inr hx))
            ((by simpa [itemVars] using hnot : ¬v = w ∧ v ∉ itemVars pre).2)]
      simp

theorem scanMatch_items (v : List Char) (hv : v ∈ managedVars) (a : Asn)
    (pre post : List Item)
    (hwf : itemsOk true (pre ++ .asn v a :: post) = true)
    (hvars : ∀ w ∈ itemVars pre, w ∈ managedVars)
    (hnot : v ∉ itemVars pre) :
    scanMatch v (flatten (pre ++ .asn v a :: post)) =
      some (flatten pre, ⟨'$' :: v ++ a.ws1 ++ '=' :: a.ws2 ++ [a.q1], a.val,
            a.q2 :: a.ws3 ++ [';'], flatten post⟩) :=
  scan_items v hv a pre true post hwf hvars hnot

theorem parseOne_items (v : List Char) (hv : v ∈ managedVars) (a : Asn)
    (pre post : List Item)
    (hwf : itemsOk true (pre ++ .asn v a :: post) = true)
    (hvars : ∀ w ∈ itemVars pre, w ∈ managedVars)
    (hnot : v ∉ itemVars pre) :
    parseOne v (flatten (pre ++ .asn v a :: post)) = some a.val := by
  rw [parseOne, scanMatch_items v hv a pre post hwf hvars hnot]
  rfl

theorem flatten_append (l1 l2 : List Item) :
    flatten (l1 ++ l2) = flatten l1 ++ flatten l2 := by
  simp [flatten]

theorem renderOne_items (v : List Char) (hv : v ∈ managedVars) (a : Asn) (val2 : List Char)
    (pre post : List Item)
    (hwf : itemsOk true (pre ++ .asn v a :: post) = true)
    (hvars : ∀ w ∈ itemVars pre, w ∈ managedVars)
    (hnot : v ∉ itemVars pre) :
    renderOne v val2 (flatten (pre ++ .asn v a :: post)) =
      some (flatten (pre ++ .asn v ⟨a.ws1, a.ws2, a.q1, val2, a.q2, a.ws3⟩ :: post)) := by
  rw [renderOne, scanMatch_items v hv a pre post hwf hvars hnot]
  rw [flatten_append, flatten_cons_asn]
  simp [Asn.render, List.append_assoc]

theorem itemVars_append (l1 l2 : List Item) :
    itemVars (l1 ++ l2) = itemVars l1 ++ itemVars l2 := by
  induction l1 with
  | nil => rfl
  | cons it l1 ih => cases it <;> simp [itemVars, ih]

theorem exists_decomp (v : List Char) (items : List Item)
    (h : (itemVars items).count v = 1) :
    ∃ pre a post, items = pre ++ .asn v a :: post ∧ v ∉ itemVars pre := by
  induction items with
  | nil => simp [itemVars] at h
  | cons it items ih =>
    cases it with
    | chunk c =>
      simp only [itemVars] at h
      obtain ⟨pre, a, post, heq, hnot⟩ := ih h
      exact ⟨.chunk c :: pre, a, post, by simp [heq], by simpa [itemVars] using hnot⟩
    | asn w b =>
      by_cases hw : w = v
      · subst hw
        have h0 : (itemVars items).count w = 0 := by
          simpa [itemVars, List.count_cons] using h
        exact ⟨[], b, items, rfl, by simp [itemVars]⟩
      · simp only [itemVars, List.count_cons, beq_iff_eq, if_neg hw, add_zero] at h
        obtain ⟨pre, a, post, heq, hnot⟩ := ih h
        refine ⟨.asn w b :: pre, a, post, by simp [heq], ?_⟩
        simp only [itemVars, List.mem_cons]
        rintro (rfl | hmem)
        · exact hw rfl
        · exact hnot hmem

theorem updateVal_decomp (v val2 : List Char) (a : Asn) (pre post : List Item)
    (hnot : v ∉ itemVars pre) :
    updateVal v val2 (pre ++ .asn v a :: post) =
      pre ++ .asn v ⟨a.ws1, a.ws2, a.q1, val2, a.q2, a.ws3⟩ :: post := by
  induction pre with
  | nil => simp [updateVal]
  | cons it pre ih =>
    cases it with
    | chunk c =>
      simp only [List.cons_append, updateVal, List.append_eq]
      rw [ih (by simpa [itemVars] using hnot)]
    | asn w b =>
      have hne : ¬w = v := by
        intro he
        exact hnot (by simp [itemVars, he])
      simp only [List.cons_append, updateVal, if_neg hne, List.append_eq]
      rw [ih ((by simpa [itemVars] using hnot : ¬v = w ∧ v ∉ itemVars pre).2)]

theorem itemVars_updateVal (v val2 : List Char) (items : List Item) :
    itemVars (updateVal v val2 items) = itemVars items := by
  induction items with
  | nil => rfl
  | cons it items ih =>
    cases it with
    | chunk c => simp [updateVal, itemVars, ih]
    | asn w b =>
      by_cases hw : w = v <;> simp [updateVal, hw, itemVars, ih]

theorem Asn.ok_setval {a : Asn} (val2 : List Char) (h : a.ok = true)
    (hs : safeValB val2 = true) :
    (Asn.mk a.ws1 a.ws2 a.q1 val2 a.q2 a.ws3).ok = true := by
  simp only [Asn.ok, Bool.and_eq_true] at h ⊢
  exact ⟨⟨⟨⟨⟨h.1.1.1.1.1, h.1.1.1.1.2⟩, h.1.1.1.2⟩, h.1.1.2⟩, h.1.2⟩, hs⟩

theorem itemsOk_updateVal (v val2 : List Char) (hs : safeValB val2 = true) :
    ∀ (items : List Item) (ls : Bool), itemsOk ls items = true →
    itemsOk ls (updateVal v val2 items) = true := by
  intro items
  induction items with
  | nil => intro ls h; exact h
  | cons it items ih =>
    intro ls h
    cases it with
    | chunk c =>
      simp only [updateVal, itemsOk, Bool.and_eq_true] at h ⊢
      exact ⟨h.1, ih _ h.2⟩
    | asn w b =>
      by_cases hw : w = v
      · simp only [updateVal, if_pos hw, itemsOk, Bool.and_eq_true] at h ⊢
        exact ⟨⟨h.1.1, Asn.ok_setval val2 h.1.2 hs⟩, h.2⟩
      · simp only [updateVal, if_neg hw, itemsOk, Bool.and_eq_true] at h ⊢
        exact ⟨h.1, ih _ h.2⟩

theorem updateVal_keep (v w val2 : List Char) (hne : ¬w = v) (a : Asn) :
    ∀ (pre post : List Item), v ∉ itemVars pre →
    ∃ pre2 post2, updateVal w val2 (pre ++ .asn v a :: post) =
      pre2 ++ .asn v a :: post2 ∧ v ∉ itemVars pre2 := by
  intro pre
  induction pre with
  | nil =>
    intro post _
    refine ⟨[], updateVal w val2 post, ?_, by simp [itemVars]⟩
    have hne2 : ¬v = w := fun he => hne he.symm
    simp [updateVal, hne2]
  | cons it pre ih =>
    intro post hnot
    cases it with
    | chunk c =>
      obtain ⟨pre2, post2, heq, h2⟩ := ih post (by simpa [itemVars] using hnot)
      exact ⟨.chunk c :: pre2, post2, by simp [updateVal, heq],
        by simpa [itemVars] using h2⟩
    | asn u b =>
      have hvu : ¬v = u ∧ v ∉ itemVars pre := by simpa [itemVars] using hnot
      by_cases hu : u = w
      · refine ⟨.asn u ⟨b.ws1, b.ws2, b.q1, val2, b.q2, b.ws3⟩ :: pre, post, ?_, ?_⟩
        · simp [updateVal, hu]
        · simp only [itemVars, List.mem_cons]
          rintro (rfl | hmem)
          · exact hvu.1 rfl
          · exact hvu.2 hmem
      · obtain ⟨pre2, post2, heq, h2⟩ := ih post hvu.2
        refine ⟨.asn u b :: pre2, post2, ?_, ?_⟩
        · simp [updateVal, hu, heq]
        · simp only [itemVars, List.mem_cons]
          rintro (rfl | hmem)
          · exact hvu.1 rfl
          · exact h2 hmem

theorem renderOne_updateVal (v val2 : List Char) (items : List Item)
    (hv : v ∈ managedVars)
    (hwf : itemsOk true items = true)
    (hvars : ∀ w ∈ itemVars items, w ∈ managedVars)
    (hcount : (itemVars items).count v = 1) :
    renderOne v val2 (flatten items) = some (flatten (updateVal v val2 items)) := by
  obtain ⟨pre, a, post, heq, hnot⟩ := exists_decomp v items hcount
  subst heq
  rw [updateVal_decomp v val2 a pre post hnot]
  exact renderOne_items v hv a val2 pre post hwf
    (fun w hw => hvars w (by simp [itemVars_append, hw]))
    hnot

/-- After updating var v and then any other vars, the value parsed for
v is the one planted for it. -/
theorem parseOne_after_updates (v : List Char) (hv : v ∈ managedVars) (a : Asn)
    (items2 : List Item)
    (hdecomp : ∃ pre post, items2 = pre ++ .asn v a :: post ∧ v ∉ itemVars pre)
    (hwf : itemsOk true items2 = true)
    (hvars : ∀ w ∈ itemVars items2, w ∈ managedVars) :
    parseOne v (flatten items2) = some a.val := by
  obtain ⟨pre, post, rfl, hnot⟩ := hdecomp
  exact parseOne_items v hv a pre post hwf
    (fun w hw => hvars w (by simp [itemVars_append, hw])) hnot

/-- C5 (amended): for every well-formed config content — a
decomposition into inert chunks (no dollar sign at a line start) and
exactly one assignment for each of the five managed php variables,
each assignment starting at a line start with space/tab padding and a
non-empty quote-free newline-free value — and every slot whose five
values are non-empty and free of quotes, newlines and backslashes:
`render_sqlconf` succeeds, its output is the input with exactly the
five managed values replaced (every byte outside them preserved, as
the `updateVal` equation states), and `parse_sqlconf` of the output
yields exactly the slot's five fields. -/
theorem C5_roundtrip_wellformed (items : List Item) (h p u pw d : String)
    (hwf : itemsOk true items = true)
    (hvars : ∀ w ∈ itemVars items, w ∈ managedVars)
    (hcounts : ∀ w ∈ managedVars, (itemVars items).count w = 1)
    (hsh : safeValB h.data = true) (hsp : safeValB p.data = true)
    (hsu : safeValB u.data = true) (hspw : safeValB pw.data = true)
    (hsd : safeValB d.data = true) :
    render_sqlconf (String.mk (flatten items)) ⟨some u, some pw, some h, some p, some d⟩ =
      .ok (String.mk (flatten (updateVal ['d','b','a','s','e'] d.data
        (updateVal ['p','a','s','s'] pw.data (updateVal ['l','o','g','i','n'] u.data
        (updateVal ['p','o','r','t'] p.data (updateVal ['h','o','s','t'] h.data items))))))) ∧
    parse_sqlconf (String.mk (flatten (updateVal ['d','b','a','s','e'] d.data
        (updateVal ['p','a','s','s'] pw.data (updateVal ['l','o','g','i','n'] u.data
        (updateVal ['p','o','r','t'] p.data (updateVal ['h','o','s','t'] h.data items))))))) =
      ⟨some h, some p, some u, some pw, some d⟩ := by
  have mh : (['h','o','s','t'] : List Char) ∈ managedVars := by simp [managedVars]
  have mp : (['p','o','r','t'] : List Char) ∈ managedVars := by simp [managedVars]
  have mu : (['l','o','g','i','n'] : List Char) ∈ managedVars := by simp [managedVars]
  have mpw : (['p','a','s','s'] : List Char) ∈ managedVars := by simp [managedVars]
  have md : (['d','b','a','s','e'] : List Char) ∈ managedVars := by simp [managedVars]
  set i1 := updateVal ['h','o','s','t'] h.data items with hi1
  set i2 := updateVal ['p','o','r','t'] p.data i1 with hi2
  set i3 := updateVal ['l','o','g','i','n'] u.data i2 with hi3
  set i4 := updateVal ['p','a','s','s'] pw.data i3 with hi4
  set i5 := updateVal ['d','b','a','s','e'] d.data i4 with hi5
  have hwf1 : itemsOk true i1 = true := itemsOk_updateVal _ _ hsh items true hwf
  have hwf2 : itemsOk true i2 = true := itemsOk_updateVal _ _ hsp i1 true hwf1
  have hwf3 : itemsOk true i3 = true := itemsOk_updateVal _ _ hsu i2 true hwf2
  have hwf4 : itemsOk true i4 = true := itemsOk_updateVal _ _ hspw i3 true hwf3
  have hwf5 : itemsOk true i5 = true := itemsOk_updateVal _ _ hsd i4 true hwf4
  have hvr1 : itemVars i1 = itemVars items := itemVars_updateVal _ _ _
  have hvr2 : itemVars i2 = itemVars items := by rw [hi2, itemVars_updateVal, hvr1]
  have hvr3 : itemVars i3 = itemVars items := by rw [hi3, itemVars_updateVal, hvr2]
  have hvr4 : itemVars i4 = itemVars items := by rw [hi4, itemVars_updateVal, hvr3]
  have hvr5 : itemVars i5 = itemVars items := by rw [hi5, itemVars_updateVal, hvr4]
  have hvars1 : ∀ w ∈ itemVars i1, w ∈ managedVars := by rw [hvr1]; exact hvars
  have hvars2 : ∀ w ∈ itemVars i2, w ∈ managedVars := by rw [hvr2]; exact hvars
  have hvars3 : ∀ w ∈ itemVars i3, w ∈ managedVars := by rw [hvr3]; exact hvars
  have hvars4 : ∀ w ∈ itemVars i4, w ∈ managedVars := by rw [hvr4]; exact hvars
  have hvars5 : ∀ w ∈ itemVars i5, w ∈ managedVars := by rw [hvr5]; exact hvars
  have e1 : renderOne ['h','o','s','t'] h.data (flatten items) = some (flatten i1) :=
    renderOne_updateVal _ _ items mh hwf hvars (hcounts _ mh)
  have e2 : renderOne ['p','o','r','t'] p.data (flatten i1) = some (flatten i2) :=
    renderOne_updateVal _ _ i1 mp hwf1 hvars1 (by rw [hvr1]; exact hcounts _ mp)
  have e3 : renderOne ['l','o','g','i','n'] u.data (flatten i2) = some (flatten i3) :=
    renderOne_updateVal _ _ i2 mu hwf2 hvars2 (by rw [hvr2]; exact hcounts _ mu)
  have e4 : renderOne ['p','a','s','s'] pw.data (flatten i3) = some (flatten i4) :=
    renderOne_updateVal _ _ i3 mpw hwf3 hvars3 (by rw [hvr3]; exact hcounts _ mpw)
  have e5 : renderOne ['d','b','a','s','e'] d.data (flatten i4) = some (flatten i5) :=
    renderOne_updateVal _ _ i4 md hwf4 hvars4 (by rw [hvr4]; exact hcounts _ md)
  constructor
  · simp only [render_sqlconf, slotFieldGet, Option.getD, renderStep, bind, Except.bind]
    rw [e1]
    simp only []
    rw [e2]
    simp only []
    rw [e3]
    simp only []
    rw [e4]
    simp only []
    rw [e5]
    simp only [Functor.map, Except.map]
    rfl
  · obtain ⟨preh, ah, posth, heqh, hnoth⟩ :=
      exists_decomp ['h','o','s','t'] items (hcounts _ mh)
    have dh1 : i1 = preh ++
        .asn ['h','o','s','t'] ⟨ah.ws1, ah.ws2, ah.q1, h.data, ah.q2, ah.ws3⟩ :: posth := by
      rw [hi1, heqh, updateVal_decomp _ _ _ _ _ hnoth]
    have dh2 := updateVal_keep ['h','o','s','t'] ['p','o','r','t'] p.data (by decide)
      ⟨ah.ws1, ah.ws2, ah.q1, h.data, ah.q2, ah.ws3⟩ preh posth hnoth
    rw [← dh1, ← hi2] at dh2
    obtain ⟨pre2, post2, dh2eq, dh2not⟩ := dh2
    have dh3 := updateVal_keep ['h','o','s','t'] ['l','o','g','i','n'] u.data (by decide)
      ⟨ah.ws1, ah.ws2, ah.q1, h.data, ah.q2, ah.ws3⟩ pre2 post2 dh2not
    rw [← dh2eq, ← hi3] at dh3
    obtain ⟨pre3, post3, dh3eq, dh3not⟩ := dh3
    have dh4 := updateVal_keep ['h','o','s','t'] ['p','a','s','s'] pw.data (by decide)
      ⟨ah.ws1, ah.ws2, ah.q1, h.data, ah.q2, ah.ws3⟩ pre3 post3 dh3not
    rw [← dh3eq, ← hi4] at dh4
    obtain ⟨pre4, post4, dh4eq, dh4not⟩ := dh4
    have dh5 := updateVal_keep ['h','o','s','t'] ['d','b','a','s','e'] d.data (by decide)
      ⟨ah.ws1, ah.ws2, ah.q1, h.data, ah.q2, ah.ws3⟩ pre4 post4 dh4not
    rw [← dh4eq, ← hi5] at dh5
    obtain ⟨pre5, post5, dh5eq, dh5not⟩ := dh5
    have ph : parseOne "host".data (flatten i5) = some h.data :=
      parseOne_after_updates _ mh _ i5 ⟨pre5, post5, dh5eq, dh5not⟩ hwf5 hvars5
    obtain ⟨prep, aP, postp, heqp, hnotp⟩ :=
      exists_decomp ['p','o','r','t'] i1 (by rw [hvr1]; exact hcounts _ mp)
    have dp1 : i2 = prep ++
        .asn ['p','o','r','t'] ⟨aP.ws1, aP.ws2, aP.q1, p.data, aP.q2, aP.ws3⟩ :: postp := by
      rw [hi2, heqp, updateVal_decomp _ _ _ _ _ hnotp]
    have dp2 := updateVal_keep ['p','o','r','t'] ['l','o','g','i','n'] u.data (by decide)
      ⟨aP.ws1, aP.ws2, aP.q1, p.data, aP.q2, aP.ws3⟩ prep postp hnotp
    rw [← dp1, ← hi3] at dp2
    obtain ⟨pp2, pq2, dp2eq, dp2not⟩ := dp2
    have dp3 := updateVal_keep ['p','o','r','t'] ['p','a','s','s'] pw.data (by decide)
      ⟨aP.ws1, aP.ws2, aP.q1, p.data, aP.q2, aP.ws3⟩ pp2 pq2 dp2not
    rw [← dp2eq, ← hi4] at dp3
    obtain ⟨pp3, pq3, dp3eq, dp3not⟩ := dp3
    have dp4 := updateVal_keep ['p','o','r','t'] ['d','b','a','s','e'] d.data (by decide)
      ⟨aP.ws1, aP.ws2, aP.q1, p.data, aP.q2, aP.ws3⟩ pp3 pq3 dp3not
    rw [← dp3eq, ← hi5] at dp4
    obtain ⟨pp4, pq4, dp4eq, dp4not⟩ := dp4
    have pp : parseOne "port".data (flatten i5) = some p.data :=
      parseOne_after_updates _ mp _ i5 ⟨pp4, pq4, dp4eq, dp4not⟩ hwf5 hvars5
    obtain ⟨preu, aU, postu, hequ, hnotu⟩ :=
      exists_decomp ['l','o','g','i','n'] i2 (by rw [hvr2]; exact hcounts _ mu)
    have du1 : i3 = preu ++
        .asn ['l','o','g','i','n'] ⟨aU.ws1, aU.ws2, aU.q1, u.data, aU.q2, aU.ws3⟩ :: postu := by
      rw [hi3, hequ, updateVal_decomp _ _ _ _ _ hnotu]
    have du2 := updateVal_keep ['l','o','g','i','n'] ['p','a','s','s'] pw.data (by decide)
      ⟨aU.ws1, aU.ws2, aU.q1, u.data, aU.q2, aU.ws3⟩ preu postu hnotu
    rw [← du1, ← hi4] at du2
    obtain ⟨pu2, pv2, du2eq, du2not⟩ := du2
    have du3 := updateVal_keep ['l','o','g','i','n'] ['d','b','a','s','e'] d.data (by decide)
      ⟨aU.ws1, aU.ws2, aU.q1, u.data, aU.q2, aU.ws3⟩ pu2 pv2 du2not
    rw [← du2eq, ← hi5] at du3
    obtain ⟨pu3, pv3, du3eq, du3not⟩ := du3
    have pu : parseOne "login".data (flatten i5) = some u.data :=
      parseOne_after_updates _ mu _ i5 ⟨pu3, pv3, du3eq, du3not⟩ hwf5 hvars5
    obtain ⟨prew, aW, postw, heqw, hnotw⟩ :=
      exists_decomp ['p','a','s','s'] i3 (by rw [hvr3]; exact hcounts _ mpw)
    have dw1 : i4 = prew ++
        .asn ['p','a','s','s'] ⟨aW.ws1, aW.ws2, aW.q1, pw.data, aW.q2, aW.ws3⟩ :: postw := by
      rw [hi4, heqw, updateVal_decomp _ _ _ _ _ hnotw]
    have dw2 := updateVal_keep ['p','a','s','s'] ['d','b','a','s','e'] d.data (by decide)
      ⟨aW.ws1, aW.ws2, aW.q1, pw.data, aW.q2, aW.ws3⟩ prew postw hnotw
    rw [← dw1, ← hi5] at dw2
    obtain ⟨pw2, px2, dw2eq, dw2not⟩ := dw2
    have ppw : parseOne "pass".data (flatten i5) = some pw.data :=
      parseOne_after_updates _ mpw _ i5 ⟨pw2, px2, dw2eq, dw2not⟩ hwf5 hvars5
    obtain ⟨pred, aD, postd, heqd, hnotd⟩ :=
      exists_decomp ['d','b','a','s','e'] i4 (by rw [hvr4]; exact hcounts _ md)
    have dd1 : i5 = pred ++
        .asn ['d','b','a','s','e'] ⟨aD.ws1, aD.ws2, aD.q1, d.data, aD.q2, aD.ws3⟩ :: postd := by
      rw [hi5, heqd, updateVal_decomp _ _ _ _ _ hnotd]
    have pd : parseOne "dbase".data (flatten i5) = some d.data :=
      parseOne_after_updates _ md _ i5 ⟨pred, postd, dd1, hnotd⟩ hwf5 hvars5
    show Sqlconf.mk ((parseOne "host".data (flatten i5)).map String.mk)
        ((parseOne "port".data (flatten i5)).map String.mk)
        ((parseOne "login".data (flatten i5)).map String.mk)
        ((parseOne "pass".data (flatten i5)).map String.mk)
        ((parseOne "dbase".data (flatten i5)).map String.mk) =
      Sqlconf.mk (some h) (some p) (some u) (some pw) (some d)
    rw [ph, pp, pu, ppw, pd]
    rfl

/-- C5 as stated is false: on a content carrying all five managed
assignments (witnessed by `parse_sqlconf` finding all five) and a slot
with all five fields set, whose password contains a single quote,
`render_sqlconf` succeeds but the rendered output no longer parses:
the password comes back as `none`, not the slot's value, because the
inserted quote terminates the value early and breaks the pattern. -/
theorem C5_counterexample :
    parse_sqlconf (confMatching "openemr_a" "pa") =
      ⟨some "db.example.com", some "3306", some "openemr_a", some "pa", some "openemr"⟩ ∧
    render_sqlconf (confMatching "openemr_a" "pa")
        ⟨some "openemr_b", some "x'y", some "db.example.com", some "3306", some "openemr"⟩ =
      .ok "<?php\n$host = 'db.example.com';\n$port = '3306';\n$login = 'openemr_b';\n$pass  = 'x'y';\n$dbase = 'openemr';\n" ∧
    parse_sqlconf "<?php\n$host = 'db.example.com';\n$port = '3306';\n$login = 'openemr_b';\n$pass  = 'x'y';\n$dbase = 'openemr';\n" =
      ⟨some "db.example.com", some "3306", some "openemr_b", none, some "openemr"⟩ :=
  ⟨by decide, by decide, by decide⟩

/-- Instantiation of the round-trip theorem on the standard content
and a slot with fresh safe values for all five fields. -/
theorem C5_roundtrip_wellformed_witness :
    render_sqlconf (String.mk (flatten itemsStd))
        ⟨some "openemr_b", some "pb2", some "db2", some "3307", some "openemr2"⟩ =
      .ok (String.mk (flatten (updateVal ['d','b','a','s','e'] "openemr2".data
        (updateVal ['p','a','s','s'] "pb2".data (updateVal ['l','o','g','i','n'] "openemr_b".data
        (updateVal ['p','o','r','t'] "3307".data (updateVal ['h','o','s','t'] "db2".data itemsStd))))))) ∧
    parse_sqlconf (String.mk (flatten (updateVal ['d','b','a','s','e'] "openemr2".data
        (updateVal ['p','a','s','s'] "pb2".data (updateVal ['l','o','g','i','n'] "openemr_b".data
        (updateVal ['p','o','r','t'] "3307".data (updateVal ['h','o','s','t'] "db2".data itemsStd))))))) =
      ⟨some "db2", some "3307", some "openemr_b", some "pb2", some "openemr2"⟩ :=
  C5_roundtrip_wellformed itemsStd "db2" "3307" "openemr_b" "pb2" "openemr2"
    (by decide) (by decide) (by decide) (by decide) (by decide) (by decide) (by decide) (by decide)

/-- C6: for every content and fully-populated slot whose five values
are backslash-free (the domain on which `re.subn`'s
replacement-template processing is the identity, hence on which the
literal-insertion renderer is faithful; the values the orchestrator
passes are generated alphanumeric passwords and host/port/dbname
strings), `render_sqlconf` succeeds exactly when each of the five
managed assignments (host, port, login, pass, dbase) is located at
its step of the substitution pipeline; when any one cannot be located
the result is an unable-to-locate error naming one of the five php
variables, and no partially rewritten content is returned. -/
theorem C6_render_locates (content h p u pw d : String)
    (hh : (h.data.all fun c => c != '\\') = true)
    (hp : (p.data.all fun c => c != '\\') = true)
    (hu : (u.data.all fun c => c != '\\') = true)
    (hpw : (pw.data.all fun c => c != '\\') = true)
    (hd : (d.data.all fun c => c != '\\') = true) :
    ((render_sqlconf content ⟨some u, some pw, some h, some p, some d⟩).isOk = true ↔
      locatesAllFive content.data h p u pw d = true) ∧
    (∀ e, render_sqlconf content ⟨some u, some pw, some h, some p, some d⟩ = .error e →
      e = .unableToLocate "host" ∨ e = .unableToLocate "port" ∨
      e = .unableToLocate "login" ∨ e = .unableToLocate "pass" ∨
      e = .unableToLocate "dbase") := by
  rcases e1 : renderOne ['h','o','s','t'] h.data content.data with _ | c1
  · constructor
    · simp [render_sqlconf, slotFieldGet, locatesAllFive, renderStep, bind, Except.bind,
        pure, Except.pure, Option.getD, e1, Except.isOk, Except.toBool]
    · intro e he
      simp [render_sqlconf, slotFieldGet, renderStep, bind, Except.bind, pure, Except.pure,
        Option.getD, e1] at he
      simp [he]
  · rcases e2 : renderOne ['p','o','r','t'] p.data c1 with _ | c2
    · constructor
      · simp [render_sqlconf, slotFieldGet, locatesAllFive, renderStep, bind, Except.bind,
          pure, Except.pure, Option.getD, e1, e2, Except.isOk, Except.toBool]
      · intro e he
        simp [render_sqlconf, slotFieldGet, renderStep, bind, Except.bind, pure, Except.pure,
          Option.getD, e1, e2] at he
        simp [he]
    · rcases e3 : renderOne ['l','o','g','i','n'] u.data c2 with _ | c3
      · constructor
        · simp [render_sqlconf, slotFieldGet, locatesAllFive, renderStep, bind, Except.bind,
            pure, Except.pure, Option.getD, e1, e2, e3, Except.isOk, Except.toBool]
        · intro e he
          simp [render_sqlconf, slotFieldGet, renderStep, bind, Except.bind, pure, Except.pure,
            Option.getD, e1, e2, e3] at he
          simp [he]
      · rcases e4 : renderOne ['p','a','s','s'] pw.data c3 with _ | c4
        · constructor
          · simp [render_sqlconf, slotFieldGet, locatesAllFive, renderStep, bind, Except.bind,
              pure, Except.pure, Option.getD, e1, e2, e3, e4, Except.isOk, Except.toBool]
          · intro e he
            simp [render_sqlconf, slotFieldGet, renderStep, bind, Except.bind, pure, Except.pure,
              Option.getD, e1, e2, e3, e4] at he
            simp [he]
        · rcases e5 : renderOne ['d','b','a','s','e'] d.data c4 with _ | c5
          · constructor
            · simp [render_sqlconf, slotFieldGet, locatesAllFive, renderStep, bind, Except.bind,
                pure, Except.pure, Option.getD, e1, e2, e3, e4, e5, Except.isOk, Except.toBool]
            · intro e he
              simp [render_sqlconf, slotFieldGet, renderStep, bind, Except.bind, pure,
                Except.pure, Option.getD, e1, e2, e3, e4, e5] at he
              simp [he]
          · constructor
            · simp [render_sqlconf, slotFieldGet, locatesAllFive, renderStep, bind, Except.bind,
                pure, Except.pure, Option.getD, e1, e2, e3, e4, e5, Except.isOk, Except.toBool]
            · intro e he
              simp [render_sqlconf, slotFieldGet, renderStep, bind, Except.bind, pure,
                Except.pure, Option.getD, e1, e2, e3, e4, e5] at he

/-- Instantiation on backslash-free slot values and a content whose
pass assignment is absent: the render fails with the unable-to-locate
error for pass, and the success/located equivalence holds on it. -/
theorem C6_render_locates_witness :
    render_sqlconf "<?php\n$host = 'h';\n$port = '1';\n$login = 'u';\n$dbase = 'd';\n"
        ⟨some "u2", some "pw2", some "h2", some "12", some "d2"⟩ =
      .error (.unableToLocate "pass") ∧
    ((render_sqlconf "<?php\n$host = 'h';\n$port = '1';\n$login = 'u';\n$dbase = 'd';\n"
        ⟨some "u2", some "pw2", some "h2", some "12", some "d2"⟩).isOk = true ↔
      locatesAllFive "<?php\n$host = 'h';\n$port = '1';\n$login = 'u';\n$dbase = 'd';\n".data
        "h2" "12" "u2" "pw2" "d2" = true) :=
  ⟨by decide,
   (C6_render_locates "<?php\n$host = 'h';\n$port = '1';\n$login = 'u';\n$dbase = 'd';\n"
      "h2" "12" "u2" "pw2" "d2"
      (by decide) (by decide) (by decide) (by decide) (by decide)).1⟩
